import Mathlib

/-!
Verification development for the live pod migration control plane
(Migration / PodCheckpoint / ContainerCheckpoint reconcilers and the
node checkpoint agent).  The Go reconcilers and the agent are embedded
shallowly: object-store reads become lookups in association lists
supplied as an environment, object-store writes and outbound RPCs
become explicit effect lists, and the agent's HTTP / filesystem
interactions are driven by environment-supplied outcomes.
-/

namespace LPM

/-! ## String primitives mirroring the Go standard library -/

/-- Whether the character list p is a leading segment of s
(Go strings.HasPrefix(string s, string p) on runes). -/
def listStarts : List Char → List Char → Bool
  | [], _ => true
  | _ :: _, [] => false
  | a :: p, b :: s => a == b && listStarts p s

/-- Go strings.HasPrefix(s, p). -/
def strStarts (p s : String) : Bool := listStarts p.data s.data

/-- Whether sub occurs contiguously inside s (Go strings.Contains on runes). -/
def listContainsSub (s sub : List Char) : Bool :=
  match s with
  | [] => sub.isEmpty
  | _ :: t => listStarts sub s || listContainsSub t sub

/-- Go strings.Contains(s, sub). -/
def goContains (s sub : String) : Bool := listContainsSub s.data sub.data

/-- Go strings.TrimPrefix(s, p). -/
def goTrimPfx (s p : String) : String := if strStarts p s then s.drop p.length else s

/-- Go filepath.Join(dir, name) for an absolute dir and a flat relative
file name: dir ++ "/" ++ name.  (The full Go function additionally
cleans the joined path; for the slash-free file names produced by the
agent the two agree.) -/
def filepathJoin (dir name : String) : String := dir ++ "/" ++ name

/-- Association-list lookup by a single string key (object-store Get by name,
used for the cluster-scoped ContainerCheckpointContent objects). -/
def find? {α : Type} (k : String) : List (String × α) → Option α
  | [] => none
  | (k', v) :: t => if k' = k then some v else find? k t

/-- Association-list lookup by namespace and name (object-store Get for
namespaced objects). -/
def find2? {α : Type} (ns name : String) : List ((String × String) × α) → Option α
  | [] => none
  | ((ns', n'), v) :: t => if ns' = ns ∧ n' = name then some v else find2? ns name t

/-! ## Kubernetes core model (the projection of corev1 used by this code) -/

/-- corev1.PullPolicy values used by the controllers. -/
inductive PullPolicy
  | always
  | ifNotPresent
  | never
deriving DecidableEq, Repr

/-- corev1.RestartPolicy values used by the controllers. -/
inductive RestartPolicy
  | always
  | onFailure
  | never
deriving DecidableEq, Repr

/-- corev1.PodRunning. -/
def podRunning : String := "Running"

/-- corev1.PodFailed. -/
def podFailed : String := "Failed"

/-- corev1.PodPending. -/
def podPending : String := "Pending"

/-- corev1.PodSucceeded. -/
def podSucceeded : String := "Succeeded"

/-- The fields of a corev1.Container that the migration code reads or
rewrites (image, imagePullPolicy) together with the per-container fields
it must carry over unchanged into the restored pod. -/
structure Container where
  name : String
  image : String
  imagePullPolicy : PullPolicy
  command : List String
  args : List String
  env : List (String × String)
  ports : List Nat
  resources : String
  volumeMounts : List String
deriving DecidableEq, Repr

/-- The fields of corev1.PodSpec used by the controllers.  securityContext
and volumes are copied wholesale, so they are carried as opaque payloads. -/
structure PodSpec where
  nodeName : String
  restartPolicy : RestartPolicy
  serviceAccountName : String
  securityContext : Option String
  volumes : List String
  containers : List Container
deriving DecidableEq, Repr

/-- The fields of corev1.PodStatus used by the controllers. -/
structure PodStatus where
  phase : String
  reason : String
deriving DecidableEq, Repr

/-- A corev1.Pod restricted to the metadata and spec fields this code uses. -/
structure Pod where
  name : String
  ns : String
  uid : String
  labels : List (String × String)
  annotations : List (String × String)
  ownerRefs : List String
  spec : PodSpec
  status : PodStatus
deriving DecidableEq, Repr

/-! ## CRD data model (api/v1 types, restricted to the fields in use) -/

/-- Phase string "Pending" (shared value of the per-kind phase constants). -/
def phPending : String := "Pending"

/-- Phase string "Running". -/
def phRunning : String := "Running"

/-- Phase string "Succeeded". -/
def phSucceeded : String := "Succeeded"

/-- Phase string "Failed". -/
def phFailed : String := "Failed"

/-- Migration phase string "Checkpointing". -/
def phCheckpointing : String := "Checkpointing"

/-- Migration phase string "CheckpointComplete". -/
def phCheckpointComplete : String := "CheckpointComplete"

/-- Migration phase string "Restoring". -/
def phRestoring : String := "Restoring"

/-- A namespaced object reference (corev1.ObjectReference restricted to
namespace and name). -/
structure ObjectRef where
  ns : String
  name : String
deriving DecidableEq, Repr

/-- lpmv1.ContainerCheckpointSpec. -/
structure ContainerCheckpointSpec where
  podName : String
  containerName : String
deriving DecidableEq, Repr

/-- lpmv1.ContainerCheckpointStatus.  metav1.Time values are modelled as
abstract Nat instants. -/
structure ContainerCheckpointStatus where
  phase : String
  message : String
  ready : Bool
  boundContentName : String
  completionTime : Option Nat
deriving DecidableEq, Repr

/-- lpmv1.ContainerCheckpoint with the metadata the reconcilers use. -/
structure ContainerCheckpoint where
  name : String
  ns : String
  labels : List (String × String)
  spec : ContainerCheckpointSpec
  status : ContainerCheckpointStatus
deriving DecidableEq, Repr

/-- lpmv1.ContainerCheckpointContentSpec. -/
structure ContainerCheckpointContentSpec where
  containerCheckpointRef : ObjectRef
  podNamespace : String
  podName : String
  containerName : String
  artifactURI : String
deriving DecidableEq, Repr

/-- lpmv1.ContainerCheckpointContent (cluster-scoped; status is empty). -/
structure ContainerCheckpointContent where
  name : String
  spec : ContainerCheckpointContentSpec
deriving DecidableEq, Repr

/-- lpmv1.PodCheckpointSpec.  PodName is a *string in Go and required by
the CRD; the reconcilers dereference it unconditionally, so it is carried
here as a plain string. -/
structure PodCheckpointSpec where
  podName : String
deriving DecidableEq, Repr

/-- lpmv1.PodCheckpointStatus. -/
structure PodCheckpointStatus where
  phase : String
  message : String
  ready : Bool
  boundContentName : String
  creationTime : Option Nat
  completionTime : Option Nat
deriving DecidableEq, Repr

/-- lpmv1.PodCheckpoint. -/
structure PodCheckpoint where
  name : String
  ns : String
  spec : PodCheckpointSpec
  status : PodCheckpointStatus
deriving DecidableEq, Repr

/-- lpmv1.PodCheckpointContentSpec; containerContents carries the
LocalObjectReference names. -/
structure PodCheckpointContentSpec where
  podCheckpointRef : ObjectRef
  podNamespace : String
  podName : String
  containerContents : List String
deriving DecidableEq, Repr

/-- lpmv1.PodCheckpointContentStatus. -/
structure PodCheckpointContentStatus where
  ready : Bool
  message : String
  creationTime : Option Nat
deriving DecidableEq, Repr

/-- lpmv1.PodCheckpointContent. -/
structure PodCheckpointContent where
  name : String
  ns : String
  spec : PodCheckpointContentSpec
  status : PodCheckpointContentStatus
deriving DecidableEq, Repr

/-- lpmv1.PodMigrationSpec. -/
structure PodMigrationSpec where
  podName : String
  targetNode : String
deriving DecidableEq, Repr

/-- lpmv1.PodMigrationStatus; podCheckpointRef is the optional
LocalObjectReference name. -/
structure PodMigrationStatus where
  phase : String
  message : String
  podCheckpointRef : Option String
  restoredPodName : String
deriving DecidableEq, Repr

/-- lpmv1.PodMigration. -/
structure PodMigration where
  name : String
  ns : String
  spec : PodMigrationSpec
  status : PodMigrationStatus
deriving DecidableEq, Repr

/-- The value a reconcile returns to the framework: (ctrl.Result, error).
done carries the optional RequeueAfter delay in seconds; err carries a
returned error (which the framework turns into a retry). -/
inductive RecResult
  | done (requeueAfterSeconds : Option Nat)
  | err (msg : String)
deriving DecidableEq, Repr

/-! ## ContainerCheckpoint reconciler
(internal/controller/containercheckpoint_controller.go) -/

/-- Environment of one ContainerCheckpoint reconcile: the pod store, the
cluster-scoped ContainerCheckpointContent store, the outcome the agent
would report if its Checkpoint RPC is issued, and the current time
(metav1.Now). -/
structure CcEnv where
  pods : List ((String × String) × Pod)
  contents : List (String × ContainerCheckpointContent)
  agentResult : Except String String
  now : Nat

instance {ε α : Type} [DecidableEq ε] [DecidableEq α] : DecidableEq (Except ε α) := fun a b =>
  match a, b with
  | Except.error e, Except.error e' =>
    if h : e = e' then Decidable.isTrue (by simp [h]) else Decidable.isFalse (by simp [h])
  | Except.ok x, Except.ok y =>
    if h : x = y then Decidable.isTrue (by simp [h]) else Decidable.isFalse (by simp [h])
  | Except.error _, Except.ok _ => Decidable.isFalse (by simp)
  | Except.ok _, Except.error _ => Decidable.isFalse (by simp)

/-- A mutation or outbound call performed by the ContainerCheckpoint
reconciler, in program order. -/
inductive CcEffect
  | agentCall (result : Except String String)
  | createContent (c : ContainerCheckpointContent)
  | statusUpdate (st : ContainerCheckpointStatus)
deriving DecidableEq, Repr

/-- performContainerCheckpoint: fetch the pod, require it to be scheduled,
then issue the agent Checkpoint RPC.  The Bool records whether the RPC was
actually issued (the two guard failures return before calling the agent). -/
def performContainerCheckpoint (env : CcEnv) (cc : ContainerCheckpoint) :
    Bool × Except String String :=
  match find2? cc.ns cc.spec.podName env.pods with
  | none =>
    (false, Except.error ("failed to get pod " ++ cc.ns ++ "/" ++ cc.spec.podName ++ ": not found"))
  | some pod =>
    if pod.spec.nodeName = "" then
      (false, Except.error ("pod " ++ cc.ns ++ "/" ++ cc.spec.podName ++ " is not scheduled to any node"))
    else (true, env.agentResult)

/-- handlePendingPhase of the ContainerCheckpoint reconciler: validate the
pod exists, the container is listed in its spec, and the pod is running,
then move to Running. -/
def ccHandlePending (env : CcEnv) (cc : ContainerCheckpoint) : List CcEffect × RecResult :=
  match find2? cc.ns cc.spec.podName env.pods with
  | none =>
    ([CcEffect.statusUpdate { cc.status with phase := phFailed, message := "pod not found" }],
     RecResult.done none)
  | some srcPod =>
    if (srcPod.spec.containers.any (fun c => c.name = cc.spec.containerName)) = false then
      ([CcEffect.statusUpdate
          { cc.status with phase := phFailed, message := "container not found in pod" }],
       RecResult.done none)
    else if srcPod.status.phase ≠ podRunning then
      ([CcEffect.statusUpdate { cc.status with phase := phFailed, message := "pod not running" }],
       RecResult.done none)
    else
      ([CcEffect.statusUpdate
          { cc.status with phase := phRunning, message := "checkpointing container" }],
       RecResult.done none)

/-- handleCheckpointingPhase of the ContainerCheckpoint reconciler (the
Running-phase handler): if boundContentName is already set only finalize
the status; otherwise call the agent, then create or adopt the
deterministically named Content object and record the binding together
with the Succeeded transition in one status update. -/
def ccHandleCheckpointing (env : CcEnv) (cc : ContainerCheckpoint) : List CcEffect × RecResult :=
  if cc.status.boundContentName ≠ "" then
    ([CcEffect.statusUpdate
        { cc.status with ready := true, phase := phSucceeded, message := "done",
                         completionTime := some env.now }],
     RecResult.done none)
  else
    match performContainerCheckpoint env cc with
    | (called, Except.error e) =>
      ((if called then [CcEffect.agentCall (Except.error e)] else []) ++
        [CcEffect.statusUpdate
          { cc.status with phase := phFailed, message := "checkpointing failed: " ++ e,
                           ready := false, completionTime := some env.now }],
       RecResult.done none)
    | (_, Except.ok artifactURI) =>
      let contentName := cc.name
      match find? contentName env.contents with
      | none =>
        let content : ContainerCheckpointContent :=
          { name := contentName,
            spec := { containerCheckpointRef := ⟨cc.ns, cc.name⟩,
                      podNamespace := cc.ns,
                      podName := cc.spec.podName,
                      containerName := cc.spec.containerName,
                      artifactURI := artifactURI } }
        ([CcEffect.agentCall (Except.ok artifactURI),
          CcEffect.createContent content,
          CcEffect.statusUpdate
            { cc.status with boundContentName := content.name, ready := true,
                             phase := phSucceeded, message := "done",
                             completionTime := some env.now }],
         RecResult.done none)
      | some existing =>
        ([CcEffect.agentCall (Except.ok artifactURI),
          CcEffect.statusUpdate
            { cc.status with boundContentName := existing.name, ready := true,
                             phase := phSucceeded, message := "done",
                             completionTime := some env.now }],
         RecResult.done none)

/-- The ContainerCheckpoint Reconcile entry point: default an empty phase
to Pending in memory, then dispatch on the phase; Succeeded and Failed go
to handleCompletedOrFailedPhase, which performs no mutations. -/
def ccReconcile (env : CcEnv) (cc0 : ContainerCheckpoint) : List CcEffect × RecResult :=
  let cc := if cc0.status.phase = "" then
              { cc0 with status := { cc0.status with phase := phPending } }
            else cc0
  if cc.status.phase = phPending then ccHandlePending env cc
  else if cc.status.phase = phRunning then ccHandleCheckpointing env cc
  else if cc.status.phase = phSucceeded ∨ cc.status.phase = phFailed then
    ([], RecResult.done none)
  else ([], RecResult.done none)

/-! ### Persisted world and crash semantics for the ContainerCheckpoint
reconciler.  A reconcile's effect list is applied in order; a crash
persists only a prefix of it.  The agent call is an outbound RPC whose
external effect (an archive published under the host's direction) is
durable the moment it succeeds, while object-store writes after the crash
point are lost. -/

/-- Persisted state relevant to one ContainerCheckpoint object: its status
as stored, the content store, and the number of archives the agent has
successfully produced for it. -/
structure CcWorld where
  status : ContainerCheckpointStatus
  contents : List (String × ContainerCheckpointContent)
  archivesPublished : Nat
deriving DecidableEq, Repr

/-- Apply one effect to the persisted world. -/
def applyCcEffect (w : CcWorld) : CcEffect → CcWorld
  | CcEffect.agentCall (Except.ok _) => { w with archivesPublished := w.archivesPublished + 1 }
  | CcEffect.agentCall (Except.error _) => w
  | CcEffect.createContent c => { w with contents := w.contents ++ [(c.name, c)] }
  | CcEffect.statusUpdate st => { w with status := st }

/-- Apply a list of effects in order. -/
def applyCcEffects (w : CcWorld) (l : List CcEffect) : CcWorld := l.foldl applyCcEffect w

/-- Number of successful agent Checkpoint invocations recorded in an
effect list. -/
def countAgentSuccesses (l : List CcEffect) : Nat :=
  l.countP (fun e => match e with
    | CcEffect.agentCall (Except.ok _) => true
    | _ => false)

/-- The last status update in an effect list, if any. -/
def lastStatusUpdate : List CcEffect → Option ContainerCheckpointStatus
  | [] => none
  | e :: t =>
    match lastStatusUpdate t with
    | some st => some st
    | none =>
      match e with
      | CcEffect.statusUpdate st => some st
      | _ => none

/-! ## PodCheckpoint reconciler (podcheckpoint controller source) -/

/-- Environment of one PodCheckpoint reconcile: the pod store, the
ContainerCheckpoint store keyed by (namespace, name) for the pending
handler's Get calls, the result of the List-by-label query in store
order, the PodCheckpointContent store, and the current time. -/
structure PcEnv where
  pods : List ((String × String) × Pod)
  ccs : List ((String × String) × ContainerCheckpoint)
  children : List ContainerCheckpoint
  pccs : List ((String × String) × PodCheckpointContent)
  now : Nat

/-- A mutation performed by the PodCheckpoint reconciler, in program order. -/
inductive PcEffect
  | createContainerCheckpoint (c : ContainerCheckpoint)
  | createPodCheckpointContent (c : PodCheckpointContent)
  | statusUpdate (st : PodCheckpointStatus)
  | contentStatusUpdate (name : String) (st : PodCheckpointContentStatus)
deriving DecidableEq, Repr

/-- handlePendingPhase of the PodCheckpoint reconciler: validate the pod,
ensure one deterministically named ContainerCheckpoint per container, then
promote to Running. -/
def pcHandlePending (env : PcEnv) (pc : PodCheckpoint) : List PcEffect × RecResult :=
  match find2? pc.ns pc.spec.podName env.pods with
  | none =>
    ([PcEffect.statusUpdate { pc.status with phase := phFailed, message := "source pod not found" }],
     RecResult.done none)
  | some srcPod =>
    if srcPod.status.phase ≠ podRunning then
      ([PcEffect.statusUpdate
          { pc.status with phase := phFailed, message := "source pod not running" }],
       RecResult.done none)
    else
      let step := fun (acc : List PcEffect × Bool) (c : Container) =>
        let childName := pc.name ++ "-" ++ c.name
        match find2? pc.ns childName env.ccs with
        | some _ => acc
        | none =>
          (acc.1 ++ [PcEffect.createContainerCheckpoint
             { name := childName, ns := pc.ns, labels := [("podcheckpoint", pc.name)],
               spec := ⟨pc.spec.podName, c.name⟩,
               status := ⟨"", "", false, "", none⟩ }], true)
      let created := srcPod.spec.containers.foldl step ([], false)
      (created.1 ++ [PcEffect.statusUpdate
          { pc.status with phase := phRunning, message := "checkpointing containers" }],
       if created.2 then RecResult.done (some 2) else RecResult.done none)

/-- The accumulator of the Running-phase fan-in loop: the mutable
allDone / allSucceeded flags and the collected bound content names, in
iteration order. -/
structure FanInAcc where
  allDone : Bool
  allSucceeded : Bool
  contents : List String
deriving DecidableEq, Repr

/-- One iteration of the fan-in loop over a child ContainerCheckpoint.
A Succeeded child with bound content contributes its content name; a
Succeeded child without bound content clears allDone; a Failed child sets
allDone to true and clears allSucceeded; any other phase clears allDone. -/
def fanInStep (acc : FanInAcc) (c : ContainerCheckpoint) : FanInAcc :=
  if c.status.phase = phSucceeded then
    if c.status.boundContentName ≠ "" then
      { acc with contents := acc.contents ++ [c.status.boundContentName] }
    else { acc with allDone := false }
  else if c.status.phase = phFailed then
    { acc with allDone := true, allSucceeded := false }
  else { acc with allDone := false }

/-- The fan-in evaluation of the listed children, starting from
allDone = true, allSucceeded = true, no contents. -/
def fanIn (cs : List ContainerCheckpoint) : FanInAcc := cs.foldl fanInStep ⟨true, true, []⟩

/-- handleCheckpointingPhase of the PodCheckpoint reconciler (the
Running-phase fan-in): list children, defensively re-run Pending when the
list is empty, evaluate child states, then either requeue, mark Failed, or
drive PodCheckpointContent creation/binding/readiness and complete. -/
def pcHandleCheckpointing (env : PcEnv) (pc : PodCheckpoint) : List PcEffect × RecResult :=
  if env.children.isEmpty then pcHandlePending env pc
  else
    let acc := fanIn env.children
    if acc.allDone = false then ([], RecResult.done (some 2))
    else if acc.allSucceeded = false then
      ([PcEffect.statusUpdate
          { pc.status with phase := phFailed,
                           message := "one or more containers failed (see ContainerCheckpoint statuses)" }],
       RecResult.done none)
    else if pc.status.boundContentName = "" then
      match find2? pc.ns pc.name env.pccs with
      | none =>
        ([PcEffect.createPodCheckpointContent
            { name := pc.name, ns := pc.ns,
              spec := { podCheckpointRef := ⟨pc.ns, pc.name⟩, podNamespace := pc.ns,
                        podName := pc.spec.podName, containerContents := acc.contents },
              status := ⟨false, "", none⟩ }],
         RecResult.done (some 2))
      | some pcc =>
        ([PcEffect.statusUpdate { pc.status with boundContentName := pcc.name }],
         RecResult.done (some 2))
    else
      match find2? pc.ns pc.status.boundContentName env.pccs with
      | none => ([], RecResult.done (some 2))
      | some bound =>
        ((if bound.status.ready = false then
            [PcEffect.contentStatusUpdate bound.name
              { bound.status with ready := true, creationTime := some env.now }]
          else []) ++
         [PcEffect.statusUpdate
            { pc.status with phase := phSucceeded, message := "checkpoint complete",
                             ready := true, completionTime := some env.now }],
         RecResult.done none)

/-- The PodCheckpoint Reconcile entry point: default an empty phase to
Pending in memory, dispatch on the phase; Succeeded and Failed go to
handleCompletedOrFailedPhase, which only logs. -/
def pcReconcile (env : PcEnv) (pc0 : PodCheckpoint) : List PcEffect × RecResult :=
  let pc := if pc0.status.phase = "" then
              { pc0 with status := { pc0.status with phase := phPending } }
            else pc0
  if pc.status.phase = phPending then pcHandlePending env pc
  else if pc.status.phase = phRunning then pcHandleCheckpointing env pc
  else if pc.status.phase = phSucceeded ∨ pc.status.phase = phFailed then
    ([], RecResult.done none)
  else ([], RecResult.done none)

/-! ## PodMigration reconciler (podmigration controller source) -/

/-- Environment of one PodMigration reconcile: the pod store, the set of
existing node names, the PodCheckpoint and PodCheckpointContent stores,
the ContainerCheckpointContent store (fetched by name), whether a Delete
of the source pod would succeed, and the current time. -/
structure MigEnv where
  pods : List ((String × String) × Pod)
  nodes : List String
  pcs : List ((String × String) × PodCheckpoint)
  pccs : List ((String × String) × PodCheckpointContent)
  cccs : List (String × ContainerCheckpointContent)
  deleteOk : Bool
  now : Nat

/-- A mutation performed by the PodMigration reconciler, in program order. -/
inductive MigEffect
  | createPodCheckpoint (pc : PodCheckpoint)
  | createPod (p : Pod)
  | deletePod (ns : String) (name : String)
  | statusUpdate (st : PodMigrationStatus)
deriving DecidableEq, Repr

/-- handlePendingPhase of the PodMigration reconciler: validate the source
pod exists and is running, validate a requested target node, ensure the
PodCheckpoint named like the migration exists, and advance to
Checkpointing. -/
def migHandlePending (env : MigEnv) (m : PodMigration) : List MigEffect × RecResult :=
  match find2? m.ns m.spec.podName env.pods with
  | none =>
    ([MigEffect.statusUpdate { m.status with phase := phFailed, message := "source pod not found" }],
     RecResult.done none)
  | some srcPod =>
    if srcPod.status.phase ≠ podRunning then
      ([MigEffect.statusUpdate
          { m.status with phase := phFailed, message := "source pod not running" }],
       RecResult.done none)
    else if m.spec.targetNode ≠ "" ∧ env.nodes.contains m.spec.targetNode = false then
      ([MigEffect.statusUpdate
          { m.status with phase := phFailed, message := "target node not found" }],
       RecResult.done none)
    else
      match find2? m.ns m.name env.pcs with
      | none =>
        ([MigEffect.createPodCheckpoint
            { name := m.name, ns := m.ns, spec := ⟨m.spec.podName⟩,
              status := ⟨"", "", false, "", none, none⟩ },
          MigEffect.statusUpdate
            { m.status with podCheckpointRef := some m.name, phase := phCheckpointing,
                            message := "checkpoint requested" }],
         RecResult.done (some 2))
      | some pc =>
        ([MigEffect.statusUpdate
            { m.status with
                podCheckpointRef :=
                  (match m.status.podCheckpointRef with
                   | none => some pc.name
                   | some r => some r),
                phase := phCheckpointing, message := "checkpoint in progress" }],
         RecResult.done none)

/-- handleCheckpointingPhase of the PodMigration reconciler: watch the
referenced PodCheckpoint, re-create it when missing, propagate Failed,
advance on Succeeded-and-ready, requeue otherwise. -/
def migHandleCheckpointing (env : MigEnv) (m : PodMigration) : List MigEffect × RecResult :=
  let pcName :=
    match m.status.podCheckpointRef with
    | some r => if r ≠ "" then r else m.name
    | none => m.name
  match find2? m.ns pcName env.pcs with
  | none =>
    (([MigEffect.createPodCheckpoint
        { name := pcName, ns := m.ns, spec := ⟨m.spec.podName⟩,
          status := ⟨"", "", false, "", none, none⟩ }] ++
      (match m.status.podCheckpointRef with
       | none => [MigEffect.statusUpdate { m.status with podCheckpointRef := some pcName }]
       | some _ => [])),
     RecResult.done (some 2))
  | some pc =>
    if pc.status.phase = phFailed then
      ([MigEffect.statusUpdate
          { m.status with phase := phFailed,
                          message := "checkpoint failed: " ++ pc.status.message }],
       RecResult.done none)
    else if pc.status.phase = phSucceeded ∧ pc.status.ready = true then
      ([MigEffect.statusUpdate
          { m.status with phase := phCheckpointComplete, message := "checkpoint complete" }],
       RecResult.done none)
    else ([], RecResult.done (some 2))

/-- getCheckpointContent: resolve the migration's PodCheckpoint reference
to its bound PodCheckpointContent. -/
def getCheckpointContent (env : MigEnv) (m : PodMigration) : Except String PodCheckpointContent :=
  match m.status.podCheckpointRef with
  | none => Except.error ("no checkpoint reference in migration status")
  | some checkpointName =>
    match find2? m.ns checkpointName env.pcs with
    | none => Except.error ("failed to get pod checkpoint: not found")
    | some pc =>
      if pc.status.boundContentName = "" then Except.error ("checkpoint has no bound content")
      else
        match find2? m.ns pc.status.boundContentName env.pccs with
        | none => Except.error ("failed to get checkpoint content: not found")
        | some pcc => Except.ok pcc

/-- The loop body of getCheckpointPathForContainer: walk the
containerContents references in order, skip names that do not resolve in
the store, and return the artifact URI of the first resolved content
object whose NAME CONTAINS the container name as a substring
(strings.Contains in the source). -/
def getPathLoop (cccs : List (String × ContainerCheckpointContent)) (containerName : String) :
    List String → String
  | [] => ""
  | n :: rest =>
    match find? n cccs with
    | none => getPathLoop cccs containerName rest
    | some content =>
      if goContains content.name containerName then content.spec.artifactURI
      else getPathLoop cccs containerName rest

/-- getCheckpointPathForContainer: resolve a container's artifact URI
through the PodCheckpointContent's containerContents list. -/
def getCheckpointPathForContainer (cccs : List (String × ContainerCheckpointContent))
    (pcc : PodCheckpointContent) (containerName : String) : String :=
  getPathLoop cccs containerName pcc.spec.containerContents

/-- The per-container body of createRestoredPod's loop: resolve the
checkpoint path, rewrite a shared:// URI to the shared-mount file path,
pass a file:// URI through as the local path, reject anything else, and
set the image and pull policy on a copy of the container. -/
def restoreContainer (cccs : List (String × ContainerCheckpointContent))
    (pcc : PodCheckpointContent) (container : Container) : Except String Container :=
  let checkpointPath := getCheckpointPathForContainer cccs pcc container.name
  if checkpointPath = "" then
    Except.error ("no checkpoint found for container " ++ container.name)
  else if strStarts ("shared://") checkpointPath then
    Except.ok { container with
      image := filepathJoin ("/mnt/checkpoints") (goTrimPfx checkpointPath ("shared://")),
      imagePullPolicy := PullPolicy.never }
  else if strStarts ("file://") checkpointPath then
    Except.ok { container with
      image := goTrimPfx checkpointPath ("file://"),
      imagePullPolicy := PullPolicy.never }
  else Except.error ("unsupported checkpoint path format: " ++ checkpointPath)

/-- createRestoredPod's container loop: first failure aborts the whole
construction, as in the source. -/
def restoreContainers (cccs : List (String × ContainerCheckpointContent))
    (pcc : PodCheckpointContent) : List Container → Except String (List Container)
  | [] => Except.ok []
  | c :: rest =>
    match restoreContainer cccs pcc c with
    | Except.error e => Except.error e
    | Except.ok rc =>
      match restoreContainers cccs pcc rest with
      | Except.error e => Except.error e
      | Except.ok rcs => Except.ok (rc :: rcs)

/-- The restored pod manifest built by createRestoredPod around the
rewritten containers: named "<source>-restored" in the source namespace,
cleared UID, source labels, traceability annotations, owned by the
migration, scheduled on the target node with restart policy Never, and
the source pod's service account, security context and volumes. -/
def restoredPodManifest (m : PodMigration) (originalPod : Pod)
    (checkpointContent : PodCheckpointContent) (cs : List Container) : Pod :=
  { name := originalPod.name ++ "-restored",
    ns := originalPod.ns,
    uid := "",
    labels := originalPod.labels,
    annotations := [("migration.source-pod", originalPod.name),
                    ("migration.target-node", m.spec.targetNode),
                    ("migration.checkpoint-source", checkpointContent.name)],
    ownerRefs := [m.name],
    spec := { nodeName := m.spec.targetNode,
              restartPolicy := RestartPolicy.never,
              serviceAccountName := originalPod.spec.serviceAccountName,
              securityContext := originalPod.spec.securityContext,
              volumes := originalPod.spec.volumes,
              containers := cs },
    status := ⟨"", ""⟩ }

/-- createRestoredPod: load the original pod and the bound
PodCheckpointContent, then build the restored pod manifest named
"<source>-restored" on the target node with restart policy Never,
preserving labels, service account, security context, volumes and all
per-container fields except image and pull policy. -/
def createRestoredPod (env : MigEnv) (m : PodMigration) : Except String Pod :=
  match find2? m.ns m.spec.podName env.pods with
  | none => Except.error ("failed to get original pod: not found")
  | some originalPod =>
    match getCheckpointContent env m with
    | Except.error e => Except.error ("failed to get checkpoint content: " ++ e)
    | Except.ok checkpointContent =>
      match restoreContainers env.cccs checkpointContent originalPod.spec.containers with
      | Except.error e => Except.error e
      | Except.ok cs => Except.ok (restoredPodManifest m originalPod checkpointContent cs)

/-- handleCheckpointCompletePhase: build the restored pod, Create it
(AlreadyExists is tolerated and leads to the same status update), record
restoredPodName and advance to Restoring; a construction failure marks the
migration Failed. -/
def migHandleCheckpointComplete (env : MigEnv) (m : PodMigration) : List MigEffect × RecResult :=
  match createRestoredPod env m with
  | Except.error e =>
    ([MigEffect.statusUpdate
        { m.status with phase := phFailed, message := "failed to create restored pod: " ++ e }],
     RecResult.done none)
  | Except.ok restoredPod =>
    ([MigEffect.createPod restoredPod,
      MigEffect.statusUpdate
        { m.status with restoredPodName := restoredPod.name, phase := phRestoring,
                        message := "restored pod created" }],
     RecResult.done (some 5))

/-- deleteOriginalPod: fetch the source pod; NotFound is success without a
delete; otherwise issue the Delete, whose failure is reported back as an
error (and only logged by the caller). -/
def deleteOriginalPod (env : MigEnv) (m : PodMigration) : List MigEffect × Option String :=
  match find2? m.ns m.spec.podName env.pods with
  | none => ([], none)
  | some p =>
    ([MigEffect.deletePod p.ns p.name],
     if env.deleteOk then none else some ("failed to delete original pod"))

/-- handleRestoringPhase: fail terminally when the status carries no
restored pod name or the restored pod is gone; on a Running restored pod
delete the source best-effort and succeed; on Failed fail; otherwise
requeue after 5 seconds with no status change. -/
def migHandleRestoring (env : MigEnv) (m : PodMigration) : List MigEffect × RecResult :=
  if m.status.restoredPodName = "" then
    ([MigEffect.statusUpdate
        { m.status with phase := phFailed, message := "no restored pod name in status" }],
     RecResult.done none)
  else
    match find2? m.ns m.status.restoredPodName env.pods with
    | none =>
      ([MigEffect.statusUpdate
          { m.status with phase := phFailed, message := "restored pod not found" }],
       RecResult.done none)
    | some restoredPod =>
      if restoredPod.status.phase = podRunning then
        ((deleteOriginalPod env m).1 ++
         [MigEffect.statusUpdate
            { m.status with phase := phSucceeded,
                            message := "pod successfully restored and running" }],
         RecResult.done none)
      else if restoredPod.status.phase = podFailed then
        ([MigEffect.statusUpdate
            { m.status with phase := phFailed, message := "restored pod failed to start" }],
         RecResult.done none)
      else if restoredPod.status.phase = podPending then ([], RecResult.done (some 5))
      else ([], RecResult.done (some 5))

/-- The PodMigration Reconcile entry point: default an empty phase to
Pending in memory, dispatch on the phase; Succeeded and Failed go to
handleCompletedOrFailedPhase, which performs no mutations. -/
def migReconcile (env : MigEnv) (m0 : PodMigration) : List MigEffect × RecResult :=
  let m := if m0.status.phase = "" then
             { m0 with status := { m0.status with phase := phPending } }
           else m0
  if m.status.phase = phPending then migHandlePending env m
  else if m.status.phase = phCheckpointing then migHandleCheckpointing env m
  else if m.status.phase = phCheckpointComplete then migHandleCheckpointComplete env m
  else if m.status.phase = phRestoring then migHandleRestoring env m
  else if m.status.phase = phSucceeded ∨ m.status.phase = phFailed then
    ([], RecResult.done none)
  else ([], RecResult.done none)

/-! ## Node checkpoint agent (cmd/checkpoint-agent/main.go) -/

/-- A calendar date-time, the fields Go's reference layout
"20060102-150405" renders. -/
structure DateTime where
  year : Nat
  month : Nat
  day : Nat
  hour : Nat
  minute : Nat
  second : Nat
deriving DecidableEq, Repr

/-- Two-digit zero-padded decimal (Go layout components 01/02/15/04/05). -/
def pad2 (n : Nat) : String := if n < 10 then "0" ++ toString n else toString n

/-- Four-digit zero-padded decimal (Go layout component 2006). -/
def pad4 (n : Nat) : String :=
  if n < 10 then "000" ++ toString n
  else if n < 100 then "00" ++ toString n
  else if n < 1000 then "0" ++ toString n
  else toString n

/-- Go t.Format("20060102-150405") on the fields of t. -/
def goTimestampFormat (t : DateTime) : String :=
  pad4 t.year ++ pad2 t.month ++ pad2 t.day ++ "-" ++
  pad2 t.hour ++ pad2 t.minute ++ pad2 t.second

/-- The instant time.Now() observes, in its two renderings: the UTC
calendar fields and the calendar fields of the process-local time zone.
A Go time.Time returned by time.Now() carries the Local location, and
Format renders the time in that location, so the agent's code formats
the localTime fields; the two coincide exactly when the local zone is
UTC. -/
structure Clock where
  utc : DateTime
  localTime : DateTime
deriving DecidableEq, Repr

/-- Outcomes of the filesystem steps of copyToSharedStorage: opening the
local archive, creating the destination, the byte copy, and the final
fsync. -/
structure CopyEnv where
  openOk : Bool
  createOk : Bool
  copyOk : Bool
  syncOk : Bool
deriving DecidableEq, Repr

/-- Result of copyToSharedStorage: the relative file name it returned
(empty on early failure), the error if any (the Go function returns the
fsync's error alongside the file name on the success path), the
destination path the copy targets, and whether the fsync was issued. -/
structure CopyResult where
  filename : String
  errMsg : Option String
  destPath : String
  fsyncIssued : Bool
deriving DecidableEq, Repr

/-- copyToSharedStorage: build the destination name
<podUID>-<container>-<timestamp>.tar under /mnt/checkpoints from the
LOCAL rendering of time.Now() (the Go code calls time.Now().Format
without converting to UTC), copy the archive, and fsync. -/
def copyToSharedStorage (clock : Clock) (fs : CopyEnv)
    (podUID containerName localPath : String) : CopyResult :=
  let timestamp := goTimestampFormat clock.localTime
  let filename := podUID ++ "-" ++ containerName ++ "-" ++ timestamp ++ ".tar"
  let sharedPath := filepathJoin ("/mnt/checkpoints") filename
  if fs.openOk = false then ⟨"", some ("open " ++ localPath ++ ": error"), sharedPath, false⟩
  else if fs.createOk = false then
    ⟨"", some ("create " ++ sharedPath ++ ": error"), sharedPath, false⟩
  else if fs.copyOk = false then ⟨"", some ("copy error"), sharedPath, false⟩
  else ⟨filename, if fs.syncOk then none else some ("sync error"), sharedPath, true⟩

/-- The file name the specification prescribes for the shared-store copy:
<podUID>-<container>-<UTC timestamp YYYYMMDD-HHMMSS>.tar.  Modelled from
the spec's words, for comparison with the agent's code. -/
def specSharedStoreFilename (clock : Clock) (podUID containerName : String) : String :=
  podUID ++ "-" ++ containerName ++ "-" ++ goTimestampFormat clock.utc ++ ".tar"

/-- One candidate mutual-TLS credential triple of makeTLSClient. -/
structure CertTriple where
  cert : String
  key : String
  ca : String
deriving DecidableEq, Repr

/-- The candidate certificate path triples, in the order the agent tries
them. -/
def certPaths : List CertTriple :=
  [⟨"/var/lib/kubelet/pki/kubelet-client-current.pem",
    "/var/lib/kubelet/pki/kubelet-client-current.pem",
    "/etc/kubernetes/pki/ca.crt"⟩,
   ⟨"/etc/kubernetes/pki/apiserver-kubelet-client.crt",
    "/etc/kubernetes/pki/apiserver-kubelet-client.key",
    "/etc/kubernetes/pki/ca.crt"⟩,
   ⟨"/etc/kubernetes/pki/apiserver-kubelet-client.crt",
    "/etc/kubernetes/pki/apiserver-kubelet-client.key",
    "/var/lib/kubelet/pki/kubelet.crt"⟩]

/-- Filesystem outcomes for the certificate discovery loop: which paths
exist, which cert/key pairs load, which CA files read, and whether the CA
bytes parse into the pool. -/
structure TlsEnv where
  statExists : String → Bool
  keyPairLoads : String → String → Bool
  caReads : String → Bool
  caParses : Bool

/-- The tls.Config-backed HTTP client the agent builds, restricted to the
fields that determine its verification behaviour. -/
structure TLSClientConfig where
  timeoutSeconds : Nat
  clientCertLoaded : Bool
  rootCAsLoaded : Bool
  insecureSkipVerify : Bool
  hasCustomVerifyCallback : Bool
deriving DecidableEq, Repr

/-- The discovery loop of makeTLSClient: the first triple whose three
files exist, whose key pair loads and whose CA file reads wins. -/
def findWorkingTriple (env : TlsEnv) : List CertTriple → Option CertTriple
  | [] => none
  | t :: rest =>
    if env.statExists t.cert = false then findWorkingTriple env rest
    else if env.statExists t.key = false then findWorkingTriple env rest
    else if env.statExists t.ca = false then findWorkingTriple env rest
    else if env.keyPairLoads t.cert t.key = false then findWorkingTriple env rest
    else if env.caReads t.ca = false then findWorkingTriple env rest
    else some t

/-- makeTLSClient: run the discovery loop, parse the CA into a pool, and
return an HTTP client whose tls.Config sets Certificates, RootCAs and
InsecureSkipVerify = true with no VerifyPeerCertificate callback.  (The
source's two distinct failure messages for the no-candidate case are
collapsed into one error value; no claim depends on them.) -/
def makeTLSClient (env : TlsEnv) : Except String TLSClientConfig :=
  match findWorkingTriple env certPaths with
  | none => Except.error ("failed to load client certificate from any known location")
  | some _ =>
    if env.caParses = false then Except.error ("failed to parse CA certificate")
    else
      Except.ok { timeoutSeconds := 30, clientCertLoaded := true, rootCAsLoaded := true,
                  insecureSkipVerify := true, hasCustomVerifyCallback := false }

/-- What the server presents on one connection, as judged against the
client's loaded CA pool and the dialled peer name. -/
structure ServerCertificate where
  chainValidatesAgainstPool : Bool
  hostnameMatches : Bool
deriving DecidableEq, Repr

/-- Go crypto/tls handshake acceptance for a client config: when
InsecureSkipVerify is set, crypto/tls accepts any certificate presented by
the server and any host name in that certificate unless a
VerifyPeerCertificate callback re-imposes a check; otherwise both the
chain validation against RootCAs and the host name check must pass.
(Embedded from the documented semantics of the external crypto/tls
library.) -/
def tlsHandshakeAccepts (cfg : TLSClientConfig) (sc : ServerCertificate) : Bool :=
  if cfg.insecureSkipVerify then
    if cfg.hasCustomVerifyCallback then sc.chainValidatesAgainstPool else true
  else sc.chainValidatesAgainstPool && sc.hostnameMatches

/-- Whether the handshake performs chain validation against the CA pool
for this config (Go crypto/tls: skipped entirely under InsecureSkipVerify
without a custom callback). -/
def chainValidationPerformed (cfg : TLSClientConfig) : Bool :=
  !cfg.insecureSkipVerify || cfg.hasCustomVerifyCallback

/-- Whether the handshake verifies the peer name for this config. -/
def peerNameVerificationPerformed (cfg : TLSClientConfig) : Bool :=
  !cfg.insecureSkipVerify

/-- The body of a kubelet response: JSON that fails to unmarshal, or a
parsed items array of archive paths. -/
inductive KubeletBody
  | malformed (msg : String)
  | itemsList (items : List String)
deriving Repr

/-- What the kubelet checkpoint endpoint does for one attempt: a
transport-level failure, or an HTTP response with a status code and a
body. -/
inductive KubeletReply
  | transportError (msg : String)
  | reply (status : Nat) (body : KubeletBody)
deriving Repr

/-- One iteration of the backoff condition function: some files means
(true, nil) — done; none means (false, nil) — retry.  Transport errors,
non-2xx statuses, unparseable bodies and empty items arrays all retry. -/
def condStep : KubeletReply → Option (List String)
  | KubeletReply.transportError _ => none
  | KubeletReply.reply status body =>
    if status < 200 ∨ 300 ≤ status then none
    else
      match body with
      | KubeletBody.malformed _ => none
      | KubeletBody.itemsList items => if items.isEmpty then none else some items

/-- The lastErr message recorded for a failed attempt, following the
source's four format strings. -/
def attemptErrMsg : KubeletReply → String
  | KubeletReply.transportError msg => "kubelet request failed: " ++ msg
  | KubeletReply.reply status body =>
    if status < 200 ∨ 300 ≤ status then
      "kubelet responded " ++ toString status ++ ": " ++
        (match body with
         | KubeletBody.malformed raw => raw
         | KubeletBody.itemsList _ => "")
    else
      match body with
      | KubeletBody.malformed msg => "failed to parse kubelet JSON response: " ++ msg
      | KubeletBody.itemsList _ => "no checkpoint files returned by kubelet"

/-- The outcome of running wait.ExponentialBackoff: the files on success,
the number of condition invocations, the sleep durations in seconds (in
order), and the last recorded attempt error. -/
structure BackoffRun where
  result : Option (List String)
  attempts : Nat
  sleeps : List Nat
  lastErr : String
deriving Repr

/-- wait.ExponentialBackoff from k8s.io/apimachinery (jitter 0, no cap),
embedded from the external library: run the condition while Steps > 0;
a false condition sleeps Duration and doubles it (Factor 2.0) unless
Steps has reached 1, in which case ErrWaitTimeout is returned.  The
environment supplies the reply observed by the i-th attempt. -/
def expBackoffAux (env : Nat → KubeletReply) (idx : Nat) (duration : Nat)
    (lastErr : String) : Nat → BackoffRun
  | 0 => ⟨none, 0, [], lastErr⟩
  | steps + 1 =>
    match condStep (env idx) with
    | some files => ⟨some files, 1, [], lastErr⟩
    | none =>
      let e := attemptErrMsg (env idx)
      match steps with
      | 0 => ⟨none, 1, [], e⟩
      | s + 1 =>
        let r := expBackoffAux env (idx + 1) (duration * 2) e (s + 1)
        ⟨r.result, r.attempts + 1, duration :: r.sleeps, r.lastErr⟩

/-- doCheckpointWithBackoff's backoff: 5 steps, initial duration 2
seconds, factor 2. -/
def runCheckpointBackoff (env : Nat → KubeletReply) : BackoffRun :=
  expBackoffAux env 0 2 ("") 5

/-- doCheckpointWithBackoff: on backoff exhaustion wrap the last attempt
error; on success return the items array. -/
def doCheckpointWithBackoff (env : Nat → KubeletReply) : Except String (List String) :=
  let r := runCheckpointBackoff env
  match r.result with
  | none => Except.error ("checkpoint failed after retries: " ++ r.lastErr)
  | some files => Except.ok files

/-- The gRPC CheckpointRequest. -/
structure CheckpointRequest where
  podNamespace : String
  podName : String
  containerName : String
  podUid : String
deriving DecidableEq, Repr

/-- The gRPC CheckpointResponse (errMsg is the proto Error field). -/
structure CheckpointResponse where
  success : Bool
  artifactUri : String
  message : String
  errMsg : String
deriving DecidableEq, Repr

/-- The environment of one agent Checkpoint RPC: whether MkdirAll
succeeds, the TLS discovery outcomes, the kubelet endpoint's behaviour
per attempt, the shared-store filesystem outcomes, and the clock. -/
structure AgentEnv where
  mkdirOk : Bool
  tlsEnv : TlsEnv
  kubeletReplies : Nat → KubeletReply
  fs : CopyEnv
  clock : Clock

/-- The agent's Checkpoint RPC handler.  Every return path of the Go
method returns a nil gRPC error together with a response, so the second
component (the gRPC-level error) is none on every path; failures are
carried inside the response as success = false plus the error string.  A
failed shared-store copy falls back to a file:// URI and still reports
success. -/
def agentCheckpoint (env : AgentEnv) (req : CheckpointRequest) :
    CheckpointResponse × Option String :=
  if env.mkdirOk = false then
    (⟨false, "", "", "failed to create checkpoint directory: error"⟩, none)
  else
    match makeTLSClient env.tlsEnv with
    | Except.error e => (⟨false, "", "", "failed to create TLS client: " ++ e⟩, none)
    | Except.ok _ =>
      match doCheckpointWithBackoff env.kubeletReplies with
      | Except.error e => (⟨false, "", "", "checkpoint failed: " ++ e⟩, none)
      | Except.ok files =>
        match files with
        | [] => (⟨false, "", "", "no checkpoint files created"⟩, none)
        | f0 :: _ =>
          let r := copyToSharedStorage env.clock env.fs req.podUid req.containerName f0
          match r.errMsg with
          | some _ =>
            (⟨true, "file://" ++ f0, "checkpoint created successfully", ""⟩, none)
          | none =>
            (⟨true, "shared://" ++ r.filename, "checkpoint created successfully", ""⟩, none)

/-! ## Shared helper lemmas and concrete fixtures -/

theorem find?_mem {α : Type} (k : String) (v : α) :
    ∀ (l : List (String × α)), find? k l = some v → (k, v) ∈ l := by
  intro l
  induction l with
  | nil => intro h; simp [find?] at h
  | cons p t ih =>
    obtain ⟨k', v'⟩ := p
    intro h
    simp only [find?] at h
    by_cases hk : k' = k
    · subst hk
      rw [if_pos rfl] at h
      injection h with h
      subst h
      exact List.mem_cons_self _ _
    · rw [if_neg hk] at h
      exact List.mem_cons_of_mem _ (ih h)

/-- A running single-container pod used as a concrete fixture. -/
def podP1 : Pod :=
  { name := "p1", ns := "default", uid := "u1", labels := [("app", "demo")],
    annotations := [], ownerRefs := [],
    spec := { nodeName := "n1", restartPolicy := RestartPolicy.always,
              serviceAccountName := "default", securityContext := none, volumes := [],
              containers := [{ name := "c", image := "img", imagePullPolicy := PullPolicy.always,
                               command := [], args := [], env := [], ports := [],
                               resources := "", volumeMounts := [] }] },
    status := ⟨podRunning, ""⟩ }

/-- A ContainerCheckpoint in the Running phase with no bound content yet. -/
def ccMC : ContainerCheckpoint :=
  { name := "m1-c", ns := "default", labels := [("podcheckpoint", "m1")],
    spec := ⟨"p1", "c"⟩,
    status := ⟨phRunning, "checkpointing container", false, "", none⟩ }

/-- A ContainerCheckpoint reconcile environment in which the pod exists,
is scheduled, and the agent call would succeed. -/
def ccEnvA : CcEnv :=
  { pods := [(("default", "p1"), podP1)], contents := [],
    agentResult := Except.ok ("shared://a1.tar"), now := 1 }

/-! ## C1: at-most-one successful agent call across reconcile re-entries -/

/-- The persisted world before the first Running-phase reconcile of ccMC. -/
def ccWorld0 : CcWorld := ⟨ccMC.status, [], 0⟩

/-- The effect list of the first Running-phase reconcile. -/
def ccCrashRun1 : List CcEffect := (ccHandleCheckpointing ccEnvA ccMC).1

/-- The persisted world after a crash that cuts the first reconcile off
right after its successful agent call, before the Content create and the
status update are persisted. -/
def ccWorld1 : CcWorld := applyCcEffects ccWorld0 (ccCrashRun1.take 1)

/-- The effect list of the re-entry reconcile that observes the crashed
world. -/
def ccRun2 : List CcEffect :=
  (ccHandleCheckpointing { ccEnvA with contents := ccWorld1.contents }
    { ccMC with status := ccWorld1.status }).1

/-- The persisted world after the re-entry completes. -/
def ccWorld2 : CcWorld := applyCcEffects ccWorld1 ccRun2

/-- C1 counterexample: a reconcile re-entry after a crash between a
successful agent Checkpoint call and the Content/status update invokes
the agent a second time — two successful agent calls (two published
archives) for one ContainerCheckpoint, refuting the claimed at-most-once
guarantee for that crash window. -/
theorem C1_counterexample :
    countAgentSuccesses ccCrashRun1 = 1 ∧
    ccWorld1.status.boundContentName = "" ∧
    countAgentSuccesses ccRun2 = 1 ∧
    ccWorld2.archivesPublished = 2 := by decide

/-- The status value the Running-phase handler writes on its success
paths: Succeeded, ready, bound to the given content name. -/
def ccFinalStatus (st : ContainerCheckpointStatus) (bound : String) (now : Nat) :
    ContainerCheckpointStatus :=
  { st with boundContentName := bound, ready := true, phase := phSucceeded,
            message := "done", completionTime := some now }

/-- C1 (amended): the Running-phase handler checks status.boundContentName
first; when it is non-empty the handler only finalizes the status and
never calls the agent, so reconciles whose status update was persisted
call the agent at most once — a completed reconcile with a successful
agent call persists a status whose boundContentName is the checkpoint's
own (non-empty) name, and every later reconcile then skips the agent.
The guarantee does not extend to a re-entry after a crash between the
successful agent call and the status update (see the counterexample). -/
theorem C1_agent_called_at_most_once_when_updates_persist :
    (∀ (env : CcEnv) (cc : ContainerCheckpoint),
      cc.status.boundContentName ≠ "" →
      ccHandleCheckpointing env cc =
        ([CcEffect.statusUpdate
            { cc.status with ready := true, phase := phSucceeded, message := "done",
                             completionTime := some env.now }],
         RecResult.done none) ∧
      countAgentSuccesses (ccHandleCheckpointing env cc).1 = 0) ∧
    (∀ (env : CcEnv) (cc : ContainerCheckpoint) (pod : Pod) (uri : String),
      cc.status.boundContentName = "" →
      find2? cc.ns cc.spec.podName env.pods = some pod →
      pod.spec.nodeName ≠ "" →
      env.agentResult = Except.ok uri →
      (∀ p ∈ env.contents, (p.2).name = p.1) →
      ∃ st, lastStatusUpdate (ccHandleCheckpointing env cc).1 = some st ∧
        st.boundContentName = cc.name ∧ st.phase = phSucceeded) := by
  constructor
  · intro env cc h
    constructor
    · simp [ccHandleCheckpointing, h]
    · simp [ccHandleCheckpointing, h, countAgentSuccesses]
  · intro env cc pod uri hbound hpod hnode har hwf
    have hperf : performContainerCheckpoint env cc = (true, Except.ok uri) := by
      simp [performContainerCheckpoint, hpod, hnode, har]
    cases hfind : find? cc.name env.contents with
    | none =>
      refine ⟨ccFinalStatus cc.status cc.name env.now, ?_, rfl, rfl⟩
      simp [ccHandleCheckpointing, hbound, hperf, hfind, lastStatusUpdate, ccFinalStatus]
    | some existing =>
      have hname : existing.name = cc.name := hwf _ (find?_mem _ _ _ hfind)
      refine ⟨ccFinalStatus cc.status existing.name env.now, ?_, hname, rfl⟩
      simp [ccHandleCheckpointing, hbound, hperf, hfind, lastStatusUpdate, ccFinalStatus]

/-- C1 witness: both limbs of the amended theorem at concrete inputs. -/
theorem C1_witness :
    (ccHandleCheckpointing ccEnvA
        { ccMC with status := { ccMC.status with boundContentName := "m1-c" } } =
      ([CcEffect.statusUpdate
          { phase := phSucceeded, message := "done", ready := true,
            boundContentName := "m1-c", completionTime := some 1 }],
       RecResult.done none)) ∧
    (∃ st, lastStatusUpdate (ccHandleCheckpointing ccEnvA ccMC).1 = some st ∧
      st.boundContentName = ccMC.name ∧ st.phase = phSucceeded) := by
  constructor
  · have h := (C1_agent_called_at_most_once_when_updates_persist.1 ccEnvA
      { ccMC with status := { ccMC.status with boundContentName := "m1-c" } } (by decide)).1
    exact h
  · exact C1_agent_called_at_most_once_when_updates_persist.2 ccEnvA ccMC podP1
      ("shared://a1.tar") (by decide) (by decide) (by decide) (by decide) (by decide)

/-! ## C9: terminal phases are sticky -/

/-- C9: a reconcile of a Migration, PodCheckpoint, or ContainerCheckpoint
whose status.phase is Succeeded or Failed performs no mutations at all —
its effect list is empty and it returns an empty result with no requeue. -/
theorem C9_terminal_phases_sticky :
    (∀ (env : CcEnv) (cc : ContainerCheckpoint),
      cc.status.phase = phSucceeded ∨ cc.status.phase = phFailed →
      ccReconcile env cc = ([], RecResult.done none)) ∧
    (∀ (env : PcEnv) (pc : PodCheckpoint),
      pc.status.phase = phSucceeded ∨ pc.status.phase = phFailed →
      pcReconcile env pc = ([], RecResult.done none)) ∧
    (∀ (env : MigEnv) (m : PodMigration),
      m.status.phase = phSucceeded ∨ m.status.phase = phFailed →
      migReconcile env m = ([], RecResult.done none)) := by
  refine ⟨?_, ?_, ?_⟩
  · intro env cc h
    rcases h with h | h <;>
      simp [ccReconcile, h, phSucceeded, phFailed, phPending, phRunning]
  · intro env pc h
    rcases h with h | h <;>
      simp [pcReconcile, h, phSucceeded, phFailed, phPending, phRunning]
  · intro env m h
    rcases h with h | h <;>
      simp [migReconcile, h, phSucceeded, phFailed, phPending, phCheckpointing,
            phCheckpointComplete, phRestoring]

/-- A terminal ContainerCheckpoint fixture. -/
def ccDone : ContainerCheckpoint :=
  { ccMC with status := ⟨phSucceeded, "done", true, "m1-c", some 2⟩ }

/-- A terminal PodCheckpoint fixture. -/
def pcDone : PodCheckpoint :=
  { name := "m1", ns := "default", spec := ⟨"p1"⟩,
    status := ⟨phFailed, "one or more containers failed (see ContainerCheckpoint statuses)",
               false, "", none, none⟩ }

/-- A terminal PodMigration fixture. -/
def migDone : PodMigration :=
  { name := "m1", ns := "default", spec := ⟨"p1", "n2"⟩,
    status := ⟨phSucceeded, "pod successfully restored and running", some "m1", "p1-restored"⟩ }

/-- A PodCheckpoint reconcile environment fixture. -/
def pcEnvA : PcEnv :=
  { pods := [(("default", "p1"), podP1)], ccs := [], children := [], pccs := [], now := 3 }

/-- A Migration reconcile environment fixture. -/
def migEnvA : MigEnv :=
  { pods := [(("default", "p1"), podP1)], nodes := ["n1", "n2"], pcs := [], pccs := [],
    cccs := [], deleteOk := true, now := 3 }

/-- C9 witness: the three limbs at concrete terminal objects. -/
theorem C9_witness :
    ccReconcile ccEnvA ccDone = ([], RecResult.done none) ∧
    pcReconcile pcEnvA pcDone = ([], RecResult.done none) ∧
    migReconcile migEnvA migDone = ([], RecResult.done none) :=
  ⟨C9_terminal_phases_sticky.1 ccEnvA ccDone (Or.inl (by decide)),
   C9_terminal_phases_sticky.2.1 pcEnvA pcDone (Or.inr (by decide)),
   C9_terminal_phases_sticky.2.2 migEnvA migDone (Or.inl (by decide))⟩

/-! ## C10: Restoring phase with a missing restored pod fails terminally -/

/-- C10: in the Restoring phase, an empty status.restoredPodName moves the
Migration terminally to Failed with message "no restored pod name in
status", and a non-empty name whose pod no longer exists in the store
moves it terminally to Failed with message "restored pod not found"; in
both cases the only mutation is that status write — no requeue and no
object creation. -/
theorem C10_restoring_missing_restored_pod_fails :
    (∀ (env : MigEnv) (m : PodMigration),
      m.status.restoredPodName = "" →
      migHandleRestoring env m =
        ([MigEffect.statusUpdate
            { m.status with phase := phFailed, message := "no restored pod name in status" }],
         RecResult.done none)) ∧
    (∀ (env : MigEnv) (m : PodMigration),
      m.status.restoredPodName ≠ "" →
      find2? m.ns m.status.restoredPodName env.pods = none →
      migHandleRestoring env m =
        ([MigEffect.statusUpdate
            { m.status with phase := phFailed, message := "restored pod not found" }],
         RecResult.done none)) := by
  constructor
  · intro env m h
    simp [migHandleRestoring, h]
  · intro env m h hfind
    simp [migHandleRestoring, h, hfind]

/-- A Migration fixture in the Restoring phase referencing pod
p1-restored. -/
def migRestoring : PodMigration :=
  { name := "m1", ns := "default", spec := ⟨"p1", "n2"⟩,
    status := ⟨phRestoring, "restored pod created", some "m1", "p1-restored"⟩ }

/-- The same Migration with an empty restoredPodName. -/
def migRestoringNoName : PodMigration :=
  { migRestoring with status := { migRestoring.status with restoredPodName := "" } }

/-- C10 witness: both limbs at concrete inputs (the fixture environment
contains no pod named p1-restored). -/
theorem C10_witness :
    migHandleRestoring migEnvA migRestoringNoName =
      ([MigEffect.statusUpdate
          { migRestoringNoName.status with phase := phFailed,
                                           message := "no restored pod name in status" }],
       RecResult.done none) ∧
    migHandleRestoring migEnvA migRestoring =
      ([MigEffect.statusUpdate
          { migRestoring.status with phase := phFailed, message := "restored pod not found" }],
       RecResult.done none) :=
  ⟨C10_restoring_missing_restored_pod_fails.1 migEnvA migRestoringNoName (by decide),
   C10_restoring_missing_restored_pod_fails.2 migEnvA migRestoring (by decide) (by decide)⟩

/-! ## C8: Restoring phase dispositions on the restored pod's phase -/

/-- C8: in the Restoring phase, a restored pod reporting Running leads to
a best-effort delete of the source pod followed by the Succeeded status
write — the Succeeded write is emitted whether or not the source pod
still exists and regardless of whether the delete succeeds (env.deleteOk
does not influence the effect list); a restored pod reporting Failed
moves the Migration to Failed; any phase that is neither Running nor
Failed (Pending in particular) requeues after 5 seconds with no status
change. -/
theorem C8_restoring_phase_dispositions :
    (∀ (env : MigEnv) (m : PodMigration) (rp : Pod),
      m.status.restoredPodName ≠ "" →
      find2? m.ns m.status.restoredPodName env.pods = some rp →
      rp.status.phase = podRunning →
      migHandleRestoring env m =
        ((deleteOriginalPod env m).1 ++
          [MigEffect.statusUpdate
            { m.status with phase := phSucceeded,
                            message := "pod successfully restored and running" }],
         RecResult.done none) ∧
      (find2? m.ns m.spec.podName env.pods = none → (deleteOriginalPod env m).1 = []) ∧
      (∀ p, find2? m.ns m.spec.podName env.pods = some p →
        (deleteOriginalPod env m).1 = [MigEffect.deletePod p.ns p.name])) ∧
    (∀ (env : MigEnv) (m : PodMigration) (rp : Pod),
      m.status.restoredPodName ≠ "" →
      find2? m.ns m.status.restoredPodName env.pods = some rp →
      rp.status.phase = podFailed →
      migHandleRestoring env m =
        ([MigEffect.statusUpdate
            { m.status with phase := phFailed, message := "restored pod failed to start" }],
         RecResult.done none)) ∧
    (∀ (env : MigEnv) (m : PodMigration) (rp : Pod),
      m.status.restoredPodName ≠ "" →
      find2? m.ns m.status.restoredPodName env.pods = some rp →
      rp.status.phase ≠ podRunning →
      rp.status.phase ≠ podFailed →
      migHandleRestoring env m = ([], RecResult.done (some 5))) := by
  refine ⟨?_, ?_, ?_⟩
  · intro env m rp h hfind hph
    refine ⟨?_, ?_, ?_⟩
    · simp [migHandleRestoring, h, hfind, hph]
    · intro hnone
      simp [deleteOriginalPod, hnone]
    · intro p hp
      simp [deleteOriginalPod, hp]
  · intro env m rp h hfind hph
    simp [migHandleRestoring, h, hfind, hph, podFailed, podRunning]
  · intro env m rp h hfind h1 h2
    simp only [migHandleRestoring, h, hfind]
    simp [h1, h2, ite_self]

/-- The restored pod fixture, reported Running on the target node. -/
def podRestoredRunning : Pod :=
  { podP1 with name := "p1-restored",
               spec := { podP1.spec with nodeName := "n2" },
               status := ⟨podRunning, ""⟩ }

/-- A Migration environment in which both the source pod and the running
restored pod exist. -/
def migEnvRestored : MigEnv :=
  { migEnvA with
      pods := [(("default", "p1"), podP1), (("default", "p1-restored"), podRestoredRunning)] }

/-- A Migration environment in which the restored pod has Failed. -/
def migEnvRestoredFailed : MigEnv :=
  { migEnvA with
      pods := [(("default", "p1"), podP1),
               (("default", "p1-restored"),
                 { podRestoredRunning with status := ⟨podFailed, ""⟩ })] }

/-- A Migration environment in which the restored pod is Pending. -/
def migEnvRestoredPending : MigEnv :=
  { migEnvA with
      pods := [(("default", "p1"), podP1),
               (("default", "p1-restored"),
                 { podRestoredRunning with status := ⟨podPending, ""⟩ })] }

/-- C8 witness: the three limbs at concrete inputs. -/
theorem C8_witness :
    (migHandleRestoring migEnvRestored migRestoring =
      ((deleteOriginalPod migEnvRestored migRestoring).1 ++
        [MigEffect.statusUpdate
          { migRestoring.status with phase := phSucceeded,
                                     message := "pod successfully restored and running" }],
       RecResult.done none)) ∧
    (deleteOriginalPod migEnvRestored migRestoring).1 = [MigEffect.deletePod "default" "p1"] ∧
    (migHandleRestoring migEnvRestoredFailed migRestoring =
      ([MigEffect.statusUpdate
          { migRestoring.status with phase := phFailed, message := "restored pod failed to start" }],
       RecResult.done none)) ∧
    migHandleRestoring migEnvRestoredPending migRestoring = ([], RecResult.done (some 5)) :=
  ⟨((C8_restoring_phase_dispositions.1 migEnvRestored migRestoring podRestoredRunning
      (by decide) (by decide) (by decide)).1),
   ((C8_restoring_phase_dispositions.1 migEnvRestored migRestoring podRestoredRunning
      (by decide) (by decide) (by decide)).2.2 podP1 (by decide)),
   (C8_restoring_phase_dispositions.2.1 migEnvRestoredFailed migRestoring
      { podRestoredRunning with status := ⟨podFailed, ""⟩ } (by decide) (by decide) (by decide)),
   (C8_restoring_phase_dispositions.2.2 migEnvRestoredPending migRestoring
      { podRestoredRunning with status := ⟨podPending, ""⟩ } (by decide) (by decide) (by decide)
      (by decide))⟩

/-! ## C2: per-container artifact resolution -/

/-- A container fixture generator sharing everything but the name. -/
def mkContainer (n : String) : Container :=
  { name := n, image := "img", imagePullPolicy := PullPolicy.always, command := [], args := [],
    env := [], ports := [], resources := "", volumeMounts := [] }

/-- Content object of container "ab" (checkpoint m-ab), artifact A.tar. -/
def cccMAB : ContainerCheckpointContent :=
  { name := "m-ab",
    spec := { containerCheckpointRef := ⟨"default", "m-ab"⟩, podNamespace := "default",
              podName := "p2", containerName := "ab", artifactURI := "shared://A.tar" } }

/-- Content object of container "b" (checkpoint m-b), artifact B.tar. -/
def cccMB : ContainerCheckpointContent :=
  { name := "m-b",
    spec := { containerCheckpointRef := ⟨"default", "m-b"⟩, podNamespace := "default",
              podName := "p2", containerName := "b", artifactURI := "shared://B.tar" } }

/-- The ContainerCheckpointContent store for pod p2. -/
def cccStoreAB : List (String × ContainerCheckpointContent) := [("m-ab", cccMAB), ("m-b", cccMB)]

/-- The PodCheckpointContent aggregating the two container contents in
creation order. -/
def pccM : PodCheckpointContent :=
  { name := "m", ns := "default",
    spec := { podCheckpointRef := ⟨"default", "m"⟩, podNamespace := "default", podName := "p2",
              containerContents := ["m-ab", "m-b"] },
    status := ⟨true, "", some 1⟩ }

/-- The two-container source pod p2 with container names "ab" and "b"
(the name of the second is a substring of the first's content object
name). -/
def podP2 : Pod :=
  { name := "p2", ns := "default", uid := "u2", labels := [("app", "two")],
    annotations := [], ownerRefs := [],
    spec := { nodeName := "n1", restartPolicy := RestartPolicy.always,
              serviceAccountName := "default", securityContext := none, volumes := [],
              containers := [mkContainer ("ab"), mkContainer ("b")] },
    status := ⟨podRunning, ""⟩ }

/-- The bound PodCheckpoint of migration m. -/
def pcM : PodCheckpoint :=
  { name := "m", ns := "default", spec := ⟨"p2"⟩,
    status := ⟨phSucceeded, "checkpoint complete", true, "m", none, some 2⟩ }

/-- Migration m over pod p2, in CheckpointComplete. -/
def migM : PodMigration :=
  { name := "m", ns := "default", spec := ⟨"p2", "n2"⟩,
    status := ⟨phCheckpointComplete, "checkpoint complete", some "m", ""⟩ }

/-- The migration environment holding pod p2 and the whole checkpoint
object graph. -/
def migEnvAB : MigEnv :=
  { pods := [(("default", "p2"), podP2)], nodes := ["n1", "n2"],
    pcs := [(("default", "m"), pcM)], pccs := [(("default", "m"), pccM)],
    cccs := cccStoreAB, deleteOk := true, now := 5 }

/-- C2: the resolution matches content object names by substring
(strings.Contains), so container "b" resolves to the artifact of
container "ab"'s content object m-ab — the first listed name containing
"b" — instead of its own content m-b; in the restored pod manifest both
containers end up with container "ab"'s archive as their image, and
container "b"'s own artifact B.tar is never used. -/
theorem C2_substring_resolution_misassigns_artifact :
    getCheckpointPathForContainer cccStoreAB pccM ("b") = "shared://A.tar" ∧
    (find? ("m-b") cccStoreAB).map (fun c => c.spec.artifactURI) = some ("shared://B.tar") ∧
    cccMAB.spec.containerName = "ab" ∧ cccMB.spec.containerName = "b" ∧
    (createRestoredPod migEnvAB migM).map (fun p => p.spec.containers.map (fun c => c.image)) =
      Except.ok ["/mnt/checkpoints/A.tar", "/mnt/checkpoints/A.tar"] := by decide

/-! ## C4: the restored pod manifest -/

/-- The image value createRestoredPod assigns for a container whose
resolved checkpoint path carries a recognized scheme: shared:// is
rewritten under the shared mount, file:// is stripped to the local
path. -/
def rewrittenImage (cccs : List (String × ContainerCheckpointContent))
    (pcc : PodCheckpointContent) (c : Container) : String :=
  let p := getCheckpointPathForContainer cccs pcc c.name
  if strStarts ("shared://") p then filepathJoin ("/mnt/checkpoints") (goTrimPfx p ("shared://"))
  else goTrimPfx p ("file://")

theorem restoreContainers_ok (cccs : List (String × ContainerCheckpointContent))
    (pcc : PodCheckpointContent) :
    ∀ l : List Container,
      (∀ c ∈ l, getCheckpointPathForContainer cccs pcc c.name ≠ "" ∧
        (strStarts ("shared://") (getCheckpointPathForContainer cccs pcc c.name) = true ∨
         strStarts ("file://") (getCheckpointPathForContainer cccs pcc c.name) = true)) →
      ∃ cs, restoreContainers cccs pcc l = Except.ok cs ∧
        List.Forall₂ (fun c rc => rc =
          { c with image := rewrittenImage cccs pcc c,
                   imagePullPolicy := PullPolicy.never }) l cs := by
  intro l
  induction l with
  | nil => intro _; exact ⟨[], rfl, List.Forall₂.nil⟩
  | cons c t ih =>
    intro h
    obtain ⟨hne, hsch⟩ := h c (List.mem_cons_self c t)
    obtain ⟨cs, hcs, hfa⟩ := ih (fun x hx => h x (List.mem_cons_of_mem c hx))
    have hrc : restoreContainer cccs pcc c =
        Except.ok ({ c with image := rewrittenImage cccs pcc c,
                            imagePullPolicy := PullPolicy.never }) := by
      by_cases hs : strStarts ("shared://") (getCheckpointPathForContainer cccs pcc c.name) = true
      · simp [restoreContainer, rewrittenImage, hne, hs]
      · have hf : strStarts ("file://") (getCheckpointPathForContainer cccs pcc c.name) = true := by
          rcases hsch with h' | h'
          · exact absurd h' hs
          · exact h'
        simp [restoreContainer, rewrittenImage, hne, Bool.eq_false_iff.mpr hs, hf]
    exact ⟨{ c with image := rewrittenImage cccs pcc c, imagePullPolicy := PullPolicy.never } :: cs,
      by simp [restoreContainers, hrc, hcs], List.Forall₂.cons rfl hfa⟩

theorem restoreContainers_err (cccs : List (String × ContainerCheckpointContent))
    (pcc : PodCheckpointContent) :
    ∀ l : List Container,
      (∀ c ∈ l, getCheckpointPathForContainer cccs pcc c.name ≠ "") →
      (∃ c ∈ l, strStarts ("shared://") (getCheckpointPathForContainer cccs pcc c.name) = false ∧
                strStarts ("file://") (getCheckpointPathForContainer cccs pcc c.name) = false) →
      ∃ c ∈ l, restoreContainers cccs pcc l =
        Except.error ("unsupported checkpoint path format: " ++
          getCheckpointPathForContainer cccs pcc c.name) := by
  intro l
  induction l with
  | nil => intro _ h; simp at h
  | cons c t ih =>
    intro hne hbad
    by_cases hcbad : strStarts ("shared://") (getCheckpointPathForContainer cccs pcc c.name) = false ∧
        strStarts ("file://") (getCheckpointPathForContainer cccs pcc c.name) = false
    · refine ⟨c, List.mem_cons_self c t, ?_⟩
      simp [restoreContainers, restoreContainer, hne c (List.mem_cons_self c t),
            hcbad.1, hcbad.2]
    · have htail : ∃ x ∈ t,
          strStarts ("shared://") (getCheckpointPathForContainer cccs pcc x.name) = false ∧
          strStarts ("file://") (getCheckpointPathForContainer cccs pcc x.name) = false := by
        rcases hbad with ⟨x, hx, hxb⟩
        rcases List.mem_cons.mp hx with h' | h'
        · exact absurd (h' ▸ hxb) hcbad
        · exact ⟨x, h', hxb⟩
      obtain ⟨x, hx, hxe⟩ := ih (fun y hy => hne y (List.mem_cons_of_mem c hy)) htail
      refine ⟨x, List.mem_cons_of_mem c hx, ?_⟩
      by_cases hs : strStarts ("shared://") (getCheckpointPathForContainer cccs pcc c.name) = true
      · simp [restoreContainers, restoreContainer, hne c (List.mem_cons_self c t), hs, hxe]
      · have hf : strStarts ("file://") (getCheckpointPathForContainer cccs pcc c.name) = true := by
          rcases Bool.eq_false_or_eq_true
            (strStarts ("file://") (getCheckpointPathForContainer cccs pcc c.name)) with h' | h'
          · exact h'
          · exact absurd ⟨Bool.eq_false_iff.mpr hs, h'⟩ hcbad
        simp [restoreContainers, restoreContainer, hne c (List.mem_cons_self c t),
              Bool.eq_false_iff.mpr hs, hf, hxe]

/-- C4: for a source pod and bound PodCheckpointContent, when every
container's resolved artifact URI carries a recognized scheme the
restored pod manifest is named "<source>-restored" in the source
namespace, preserves labels, service account, security context, volumes
and every per-container field other than image and pull policy, pins
nodeName to spec.targetNode, sets restart policy Never and pull policy
Never, rewrites shared://<filename> to /mnt/checkpoints/<filename> and
passes file:// URIs through as the local path; when some container's
resolved URI carries any other scheme, construction fails with an
"unsupported checkpoint path format" error. -/
theorem C4_restored_pod_manifest :
    ∀ (env : MigEnv) (m : PodMigration) (orig : Pod) (pcc : PodCheckpointContent),
      find2? m.ns m.spec.podName env.pods = some orig →
      getCheckpointContent env m = Except.ok pcc →
      ((∀ c ∈ orig.spec.containers,
          getCheckpointPathForContainer env.cccs pcc c.name ≠ "" ∧
          (strStarts ("shared://") (getCheckpointPathForContainer env.cccs pcc c.name) = true ∨
           strStarts ("file://") (getCheckpointPathForContainer env.cccs pcc c.name) = true)) →
        ∃ p, createRestoredPod env m = Except.ok p ∧
          p.name = orig.name ++ "-restored" ∧
          p.ns = orig.ns ∧
          p.labels = orig.labels ∧
          p.spec.serviceAccountName = orig.spec.serviceAccountName ∧
          p.spec.securityContext = orig.spec.securityContext ∧
          p.spec.volumes = orig.spec.volumes ∧
          p.spec.nodeName = m.spec.targetNode ∧
          p.spec.restartPolicy = RestartPolicy.never ∧
          List.Forall₂ (fun c rc => rc =
            { c with image := rewrittenImage env.cccs pcc c,
                     imagePullPolicy := PullPolicy.never })
            orig.spec.containers p.spec.containers) ∧
      ((∀ c ∈ orig.spec.containers, getCheckpointPathForContainer env.cccs pcc c.name ≠ "") →
       (∃ c ∈ orig.spec.containers,
          strStarts ("shared://") (getCheckpointPathForContainer env.cccs pcc c.name) = false ∧
          strStarts ("file://") (getCheckpointPathForContainer env.cccs pcc c.name) = false) →
        ∃ c ∈ orig.spec.containers, createRestoredPod env m =
          Except.error ("unsupported checkpoint path format: " ++
            getCheckpointPathForContainer env.cccs pcc c.name)) := by
  intro env m orig pcc hpod hpcc
  constructor
  · intro hgood
    obtain ⟨cs, hcs, hfa⟩ := restoreContainers_ok env.cccs pcc orig.spec.containers hgood
    refine ⟨restoredPodManifest m orig pcc cs, ?_, rfl, rfl, rfl, rfl, rfl, rfl, rfl, rfl, hfa⟩
    simp [createRestoredPod, hpod, hpcc, hcs]
  · intro hne hbad
    obtain ⟨c, hc, herr⟩ := restoreContainers_err env.cccs pcc orig.spec.containers hne hbad
    refine ⟨c, hc, ?_⟩
    simp [createRestoredPod, hpod, hpcc, herr]

/-- A clean content store for pod p3: container ca resolves to a
shared:// URI, container cb to a file:// URI, container cx to an
unrecognized scheme. -/
def cccStoreP3 : List (String × ContainerCheckpointContent) :=
  [("n-ca", { name := "n-ca",
              spec := { containerCheckpointRef := ⟨"default", "n-ca"⟩, podNamespace := "default",
                        podName := "p3", containerName := "ca",
                        artifactURI := "shared://x1.tar" } }),
   ("n-cb", { name := "n-cb",
              spec := { containerCheckpointRef := ⟨"default", "n-cb"⟩, podNamespace := "default",
                        podName := "p3", containerName := "cb",
                        artifactURI := "file:///var/lib/kubelet/checkpoints/x2.tar" } }),
   ("n-cx", { name := "n-cx",
              spec := { containerCheckpointRef := ⟨"default", "n-cx"⟩, podNamespace := "default",
                        podName := "p3", containerName := "cx",
                        artifactURI := "s3://bucket/x3.tar" } })]

/-- The two-container pod p3 (recognized schemes only). -/
def podP3 : Pod :=
  { name := "p3", ns := "default", uid := "u3", labels := [("app", "p3")],
    annotations := [], ownerRefs := [],
    spec := { nodeName := "n1", restartPolicy := RestartPolicy.always,
              serviceAccountName := "svc", securityContext := some ("runAsUser-1000"),
              volumes := ["vol1"],
              containers := [mkContainer ("ca"), mkContainer ("cb")] },
    status := ⟨podRunning, ""⟩ }

/-- Pod p3x additionally carries container cx whose artifact has an
unrecognized scheme. -/
def podP3x : Pod :=
  { podP3 with name := "p3x",
               spec := { podP3.spec with
                 containers := [mkContainer ("ca"), mkContainer ("cx")] } }

/-- PodCheckpointContent for checkpoint n over p3. -/
def pccN : PodCheckpointContent :=
  { name := "n", ns := "default",
    spec := { podCheckpointRef := ⟨"default", "n"⟩, podNamespace := "default", podName := "p3",
              containerContents := ["n-ca", "n-cb", "n-cx"] },
    status := ⟨true, "", some 1⟩ }

/-- Bound PodCheckpoint n. -/
def pcN : PodCheckpoint :=
  { name := "n", ns := "default", spec := ⟨"p3"⟩,
    status := ⟨phSucceeded, "checkpoint complete", true, "n", none, some 2⟩ }

/-- Migration n over pod p3. -/
def migN : PodMigration :=
  { name := "n", ns := "default", spec := ⟨"p3", "n2"⟩,
    status := ⟨phCheckpointComplete, "checkpoint complete", some "n", ""⟩ }

/-- Migration nx over pod p3x (hits the unrecognized scheme). -/
def migNx : PodMigration := { migN with name := "nx", spec := ⟨"p3x", "n2"⟩ }

/-- Environment for migrations n and nx. -/
def migEnvP3 : MigEnv :=
  { pods := [(("default", "p3"), podP3), (("default", "p3x"), podP3x)], nodes := ["n1", "n2"],
    pcs := [(("default", "n"), pcN)], pccs := [(("default", "n"), pccN)],
    cccs := cccStoreP3, deleteOk := true, now := 7 }

/-- C4 witness: both limbs of the theorem at concrete inputs. -/
theorem C4_witness :
    (∃ p, createRestoredPod migEnvP3 migN = Except.ok p ∧
      p.name = podP3.name ++ "-restored" ∧
      p.ns = podP3.ns ∧
      p.labels = podP3.labels ∧
      p.spec.serviceAccountName = podP3.spec.serviceAccountName ∧
      p.spec.securityContext = podP3.spec.securityContext ∧
      p.spec.volumes = podP3.spec.volumes ∧
      p.spec.nodeName = migN.spec.targetNode ∧
      p.spec.restartPolicy = RestartPolicy.never ∧
      List.Forall₂ (fun c rc => rc =
        { c with image := rewrittenImage migEnvP3.cccs pccN c,
                 imagePullPolicy := PullPolicy.never })
        podP3.spec.containers p.spec.containers) ∧
    (∃ c ∈ podP3x.spec.containers, createRestoredPod migEnvP3 migNx =
      Except.error ("unsupported checkpoint path format: " ++
        getCheckpointPathForContainer migEnvP3.cccs pccN c.name)) :=
  ⟨(C4_restored_pod_manifest migEnvP3 migN podP3 pccN (by decide) (by decide)).1 (by decide),
   (C4_restored_pod_manifest migEnvP3 migNx podP3x pccN (by decide) (by decide)).2
     (by decide) (by decide)⟩

/-! ## C3: the Running-phase fan-in and a Failed child -/

/-- Whether a child is in phase Failed. -/
def ccFailedB (c : ContainerCheckpoint) : Bool := c.status.phase == phFailed

/-- Whether a child is terminal for the fan-in: Succeeded with bound
content, or Failed. -/
def ccTerminalB (c : ContainerCheckpoint) : Bool :=
  (c.status.phase == phSucceeded && c.status.boundContentName != "") || ccFailedB c

theorem fanIn_foldl_terminal (cs : List ContainerCheckpoint) :
    ∀ acc : FanInAcc, cs.all ccTerminalB = true →
      (cs.foldl fanInStep acc).allDone = (acc.allDone || cs.any ccFailedB) ∧
      (cs.foldl fanInStep acc).allSucceeded = (acc.allSucceeded && !(cs.any ccFailedB)) := by
  induction cs with
  | nil => intro acc _; simp
  | cons c t ih =>
    intro acc hall
    rw [List.all_cons, Bool.and_eq_true] at hall
    obtain ⟨hc, ht⟩ := hall
    by_cases hf : ccFailedB c = true
    · have hphase : c.status.phase = phFailed := by
        simpa [ccFailedB] using hf
      have hstep : fanInStep acc c = { acc with allDone := true, allSucceeded := false } := by
        simp [fanInStep, hphase, phFailed, phSucceeded]
      rw [List.foldl_cons, hstep]
      obtain ⟨h1, h2⟩ := ih _ ht
      refine ⟨?_, ?_⟩
      · rw [h1]; simp [List.any_cons, hf]
      · rw [h2]; simp [List.any_cons, hf]
    · have hf' : ccFailedB c = false := Bool.eq_false_iff.mpr hf
      have hsb : c.status.phase = phSucceeded ∧ c.status.boundContentName ≠ "" := by
        simpa [ccTerminalB, hf'] using hc
      have hstep : fanInStep acc c =
          { acc with contents := acc.contents ++ [c.status.boundContentName] } := by
        simp [fanInStep, hsb.1, hsb.2]
      rw [List.foldl_cons, hstep]
      obtain ⟨h1, h2⟩ := ih _ ht
      refine ⟨?_, ?_⟩
      · rw [h1]; simp [List.any_cons, hf']
      · rw [h2]; simp [List.any_cons, hf']

theorem pcHandleCheckpointing_failed_of_terminal (env : PcEnv) (pc : PodCheckpoint)
    (hall : env.children.all ccTerminalB = true)
    (hany : env.children.any ccFailedB = true) :
    pcHandleCheckpointing env pc =
      ([PcEffect.statusUpdate
          { pc.status with phase := phFailed,
                           message := "one or more containers failed (see ContainerCheckpoint statuses)" }],
       RecResult.done none) := by
  have hne : env.children.isEmpty = false := by
    cases hc : env.children with
    | nil => rw [hc] at hany; simp at hany
    | cons a l => simp
  obtain ⟨h1, h2⟩ := fanIn_foldl_terminal env.children ⟨true, true, []⟩ hall
  have hDone : (fanIn env.children).allDone = true := by
    rw [fanIn, h1, hany]; simp
  have hSucc : (fanIn env.children).allSucceeded = false := by
    rw [fanIn, h2, hany]; simp
  simp [pcHandleCheckpointing, hne, hDone, hSucc]

/-- C3 (amended): when every listed child is terminal (Succeeded with
bound content, or Failed) and at least one is Failed, the parent
transitions to Failed with a single status write — no PodCheckpointContent
is created — and the disposition is invariant under every permutation of
the listed children.  When a non-terminal child is present the evaluation
can instead requeue even though a Failed child is listed: the Failed
branch of the loop sets its completion flag in a way a later in-progress
child resets, so the single-evaluation disposition depends on the listing
order (see the counterexample). -/
theorem C3_fan_in_failed_child :
    ∀ (env : PcEnv) (pc : PodCheckpoint),
      env.children.all ccTerminalB = true →
      env.children.any ccFailedB = true →
      (pcHandleCheckpointing env pc =
        ([PcEffect.statusUpdate
            { pc.status with phase := phFailed,
                             message := "one or more containers failed (see ContainerCheckpoint statuses)" }],
         RecResult.done none)) ∧
      (∀ cs', cs'.Perm env.children →
        pcHandleCheckpointing { env with children := cs' } pc = pcHandleCheckpointing env pc) := by
  intro env pc hall hany
  have hmain := pcHandleCheckpointing_failed_of_terminal env pc hall hany
  refine ⟨hmain, ?_⟩
  intro cs' hperm
  have hall' : cs'.all ccTerminalB = true := by
    rw [List.all_eq_true] at hall ⊢
    intro x hx
    exact hall x (hperm.mem_iff.mp hx)
  have hany' : cs'.any ccFailedB = true := by
    rw [List.any_eq_true] at hany ⊢
    obtain ⟨x, hx, hxf⟩ := hany
    exact ⟨x, hperm.mem_iff.mpr hx, hxf⟩
  rw [pcHandleCheckpointing_failed_of_terminal { env with children := cs' } pc hall' hany', hmain]

/-- A Failed child of PodCheckpoint m1. -/
def ccChildFailed : ContainerCheckpoint :=
  { name := "m1-a", ns := "default", labels := [("podcheckpoint", "m1")], spec := ⟨"p1", "a"⟩,
    status := ⟨phFailed, "checkpointing failed: boom", false, "", some 2⟩ }

/-- A Pending (in-progress) child of PodCheckpoint m1. -/
def ccChildPending : ContainerCheckpoint :=
  { name := "m1-b", ns := "default", labels := [("podcheckpoint", "m1")], spec := ⟨"p1", "b"⟩,
    status := ⟨phPending, "", false, "", none⟩ }

/-- A Succeeded child of PodCheckpoint m1 with bound content. -/
def ccChildSucc : ContainerCheckpoint :=
  { name := "m1-b", ns := "default", labels := [("podcheckpoint", "m1")], spec := ⟨"p1", "b"⟩,
    status := ⟨phSucceeded, "done", true, "m1-b", some 2⟩ }

/-- PodCheckpoint m1 in the Running (fan-in) phase. -/
def pcRunningFix : PodCheckpoint :=
  { name := "m1", ns := "default", spec := ⟨"p1"⟩,
    status := ⟨phRunning, "checkpointing containers", false, "", none, none⟩ }

/-- Children listed with the Failed child first, the Pending child after. -/
def envFP : PcEnv := { pcEnvA with children := [ccChildFailed, ccChildPending] }

/-- The same children in the opposite order. -/
def envPF : PcEnv := { pcEnvA with children := [ccChildPending, ccChildFailed] }

/-- C3 counterexample: with the Failed child listed before the Pending
child the evaluation requeues with no status write, while the reverse
listing of the same children marks the parent Failed — the claimed
transition to Failed does not happen for the first listing, and the
disposition of a single fan-in evaluation depends on the order of the
listed set. -/
theorem C3_counterexample :
    (pcHandleCheckpointing envFP pcRunningFix = ([], RecResult.done (some 2))) ∧
    (pcHandleCheckpointing envPF pcRunningFix =
      ([PcEffect.statusUpdate
          { pcRunningFix.status with phase := phFailed,
                                     message := "one or more containers failed (see ContainerCheckpoint statuses)" }],
       RecResult.done none)) ∧
    envFP.children.Perm envPF.children := by decide

/-- Children listed with the Succeeded child first, the Failed child
after; the reverse ordering is cs' in the witness. -/
def envTermSF : PcEnv := { pcEnvA with children := [ccChildSucc, ccChildFailed] }

/-- C3 witness: the amended theorem applied at a fully terminal listed
set with one Failed child, including the permutation limb at the reversed
listing. -/
theorem C3_witness :
    (pcHandleCheckpointing envTermSF pcRunningFix =
      ([PcEffect.statusUpdate
          { pcRunningFix.status with phase := phFailed,
                                     message := "one or more containers failed (see ContainerCheckpoint statuses)" }],
       RecResult.done none)) ∧
    pcHandleCheckpointing { envTermSF with children := [ccChildFailed, ccChildSucc] } pcRunningFix =
      pcHandleCheckpointing envTermSF pcRunningFix :=
  ⟨(C3_fan_in_failed_child envTermSF pcRunningFix (by decide) (by decide)).1,
   (C3_fan_in_failed_child envTermSF pcRunningFix (by decide) (by decide)).2
     [ccChildFailed, ccChildSucc] (by decide)⟩

/-! ## C7: the TLS client's verification behaviour -/

/-- A filesystem environment in which the first certificate triple loads
cleanly. -/
def tlsEnvAllOk : TlsEnv :=
  { statExists := fun _ => true, keyPairLoads := fun _ _ => true,
    caReads := fun _ => true, caParses := true }

/-- The config makeTLSClient builds whenever it succeeds. -/
def agentTLSConfig : TLSClientConfig :=
  { timeoutSeconds := 30, clientCertLoaded := true, rootCAsLoaded := true,
    insecureSkipVerify := true, hasCustomVerifyCallback := false }

/-- C7 counterexample: the client makeTLSClient builds accepts a
connection whose server certificate does NOT validate against the loaded
CA pool (and whose host name does not match either) — chain validation is
not performed at all, refuting the claim that only the peer-name check is
disabled while CA-chain validation still runs. -/
theorem C7_counterexample :
    makeTLSClient tlsEnvAllOk = Except.ok agentTLSConfig ∧
    tlsHandshakeAccepts agentTLSConfig ⟨false, false⟩ = true ∧
    chainValidationPerformed agentTLSConfig = false := by decide

/-- C7 (amended): every client makeTLSClient returns sets
InsecureSkipVerify with no VerifyPeerCertificate callback, so the
handshake performs neither peer-name verification nor CA-chain
validation and accepts every server certificate; a CA pool is loaded
into RootCAs but is never consulted. -/
theorem C7_tls_client_skips_all_verification :
    ∀ (env : TlsEnv) (cfg : TLSClientConfig),
      makeTLSClient env = Except.ok cfg →
      cfg.insecureSkipVerify = true ∧
      cfg.hasCustomVerifyCallback = false ∧
      cfg.rootCAsLoaded = true ∧
      cfg.clientCertLoaded = true ∧
      chainValidationPerformed cfg = false ∧
      peerNameVerificationPerformed cfg = false ∧
      (∀ sc, tlsHandshakeAccepts cfg sc = true) := by
  intro env cfg h
  unfold makeTLSClient at h
  cases hft : findWorkingTriple env certPaths <;> rw [hft] at h
  · simp at h
  · by_cases hca : env.caParses = false
    · rw [if_pos hca] at h
      simp at h
    · rw [if_neg hca] at h
      injection h with h
      subst h
      refine ⟨rfl, rfl, rfl, rfl, rfl, rfl, ?_⟩
      intro sc
      simp [tlsHandshakeAccepts]

/-- C7 witness: the amended theorem at the concrete all-ok filesystem. -/
theorem C7_witness :
    agentTLSConfig.insecureSkipVerify = true ∧
    agentTLSConfig.hasCustomVerifyCallback = false ∧
    agentTLSConfig.rootCAsLoaded = true ∧
    agentTLSConfig.clientCertLoaded = true ∧
    chainValidationPerformed agentTLSConfig = false ∧
    peerNameVerificationPerformed agentTLSConfig = false ∧
    (∀ sc, tlsHandshakeAccepts agentTLSConfig sc = true) :=
  C7_tls_client_skips_all_verification tlsEnvAllOk agentTLSConfig (by decide)

/-! ## C6: bounded exponential backoff and failure classification -/

/-- C6: the host-endpoint call is retried under the bounded backoff
(5 attempts, initial delay 2 s, factor 2 — exhaustion sleeps exactly
2, 4, 8, 16 seconds); transport errors, non-2xx responses and 2xx
responses with an empty items array are all classified as failed
attempts; when every attempt fails the Checkpoint RPC returns a normal
response with success = false carrying the wrapped error string, and the
handler never returns a gRPC-level error on any path. -/
theorem C6_backoff_retries_and_failure_classification :
    (∀ env : Nat → KubeletReply, (runCheckpointBackoff env).attempts ≤ 5) ∧
    (∀ msg, condStep (KubeletReply.transportError msg) = none) ∧
    (∀ status body, status < 200 ∨ 300 ≤ status →
      condStep (KubeletReply.reply status body) = none) ∧
    (∀ status, condStep (KubeletReply.reply status (KubeletBody.itemsList [])) = none) ∧
    (∀ env : Nat → KubeletReply, (∀ i, i < 5 → condStep (env i) = none) →
      runCheckpointBackoff env = ⟨none, 5, [2, 4, 8, 16], attemptErrMsg (env 4)⟩ ∧
      doCheckpointWithBackoff env =
        Except.error ("checkpoint failed after retries: " ++ attemptErrMsg (env 4))) ∧
    (∀ (env : AgentEnv) (req : CheckpointRequest) (cfg : TLSClientConfig),
      env.mkdirOk = true →
      makeTLSClient env.tlsEnv = Except.ok cfg →
      (∀ i, i < 5 → condStep (env.kubeletReplies i) = none) →
      agentCheckpoint env req =
        (⟨false, "", "",
          "checkpoint failed: " ++ ("checkpoint failed after retries: " ++
            attemptErrMsg (env.kubeletReplies 4))⟩, none)) ∧
    (∀ (env : AgentEnv) (req : CheckpointRequest), (agentCheckpoint env req).2 = none) := by
  have hexact : ∀ env : Nat → KubeletReply, (∀ i, i < 5 → condStep (env i) = none) →
      runCheckpointBackoff env = ⟨none, 5, [2, 4, 8, 16], attemptErrMsg (env 4)⟩ := by
    intro env h
    simp [runCheckpointBackoff, expBackoffAux,
          h 0 (by norm_num), h 1 (by norm_num), h 2 (by norm_num),
          h 3 (by norm_num), h 4 (by norm_num)]
  refine ⟨?_, ?_, ?_, ?_, ?_, ?_, ?_⟩
  · intro env
    cases h0 : condStep (env 0) with
    | some f => simp [runCheckpointBackoff, expBackoffAux, h0]
    | none =>
      cases h1 : condStep (env 1) with
      | some f => simp [runCheckpointBackoff, expBackoffAux, h0, h1]
      | none =>
        cases h2 : condStep (env 2) with
        | some f => simp [runCheckpointBackoff, expBackoffAux, h0, h1, h2]
        | none =>
          cases h3 : condStep (env 3) with
          | some f => simp [runCheckpointBackoff, expBackoffAux, h0, h1, h2, h3]
          | none =>
            cases h4 : condStep (env 4) with
            | some f => simp [runCheckpointBackoff, expBackoffAux, h0, h1, h2, h3, h4]
            | none => simp [runCheckpointBackoff, expBackoffAux, h0, h1, h2, h3, h4]
  · intro msg
    rfl
  · intro status body h
    simp [condStep]
    intro h200 h300
    rcases h with h | h
    · exact absurd h (by omega)
    · exact absurd h (by omega)
  · intro status
    by_cases h : status < 200 ∨ 300 ≤ status
    · simp [condStep, h]
    · simp [condStep, h]
  · intro env h
    refine ⟨hexact env h, ?_⟩
    simp [doCheckpointWithBackoff, hexact env h]
  · intro env req cfg hmk htls h
    have hdo : doCheckpointWithBackoff env.kubeletReplies =
        Except.error ("checkpoint failed after retries: " ++ attemptErrMsg (env.kubeletReplies 4)) := by
      simp [doCheckpointWithBackoff, hexact env.kubeletReplies h]
    simp [agentCheckpoint, hmk, htls, hdo]
  · intro env req
    by_cases hmk : env.mkdirOk = false
    · simp [agentCheckpoint, hmk]
    · cases htls : makeTLSClient env.tlsEnv with
      | error e => simp [agentCheckpoint, hmk, htls]
      | ok cfg =>
        cases hdo : doCheckpointWithBackoff env.kubeletReplies with
        | error e => simp [agentCheckpoint, hmk, htls, hdo]
        | ok files =>
          cases files with
          | nil => simp [agentCheckpoint, hmk, htls, hdo]
          | cons f0 rest =>
            cases hcp : (copyToSharedStorage env.clock env.fs req.podUid req.containerName
                f0).errMsg with
            | none => simp [agentCheckpoint, hmk, htls, hdo, hcp]
            | some e => simp [agentCheckpoint, hmk, htls, hdo, hcp]

/-- A kubelet endpoint that 404s with an empty items body on every
attempt. -/
def kubelet404 : Nat → KubeletReply :=
  fun _ => KubeletReply.reply 404 (KubeletBody.itemsList [])

/-- A fully healthy fixture clock: local time equals UTC. -/
def clockUTC : Clock := ⟨⟨2026, 1, 2, 3, 4, 5⟩, ⟨2026, 1, 2, 3, 4, 5⟩⟩

/-- An agent environment whose kubelet endpoint always fails with 404. -/
def agentEnv404 : AgentEnv :=
  { mkdirOk := true, tlsEnv := tlsEnvAllOk, kubeletReplies := kubelet404,
    fs := ⟨true, true, true, true⟩, clock := clockUTC }

/-- A concrete Checkpoint request fixture. -/
def req1 : CheckpointRequest := ⟨"default", "p1", "c1", "u1"⟩

/-- C6 witness: the quantified limbs of the theorem at concrete inputs. -/
theorem C6_witness :
    (runCheckpointBackoff kubelet404).attempts ≤ 5 ∧
    condStep (KubeletReply.transportError ("dial tcp: refused")) = none ∧
    condStep (KubeletReply.reply 404 (KubeletBody.itemsList ["x"])) = none ∧
    condStep (KubeletReply.reply 200 (KubeletBody.itemsList [])) = none ∧
    runCheckpointBackoff kubelet404 = ⟨none, 5, [2, 4, 8, 16], attemptErrMsg (kubelet404 4)⟩ ∧
    agentCheckpoint agentEnv404 req1 =
      (⟨false, "", "",
        "checkpoint failed: " ++ ("checkpoint failed after retries: " ++
          attemptErrMsg (kubelet404 4))⟩, none) ∧
    (agentCheckpoint agentEnv404 req1).2 = none :=
  ⟨C6_backoff_retries_and_failure_classification.1 kubelet404,
   C6_backoff_retries_and_failure_classification.2.1 ("dial tcp: refused"),
   C6_backoff_retries_and_failure_classification.2.2.1 404 (KubeletBody.itemsList ["x"])
     (by norm_num),
   C6_backoff_retries_and_failure_classification.2.2.2.1 200,
   (C6_backoff_retries_and_failure_classification.2.2.2.2.1 kubelet404 (by decide)).1,
   C6_backoff_retries_and_failure_classification.2.2.2.2.2.1 agentEnv404 req1 agentTLSConfig
     rfl (by decide) (by decide),
   C6_backoff_retries_and_failure_classification.2.2.2.2.2.2 agentEnv404 req1⟩

/-! ## C5: shared-store publication and file:// fallback -/

/-- C5 (amended): on a successful host-endpoint checkpoint the agent
copies the first returned archive to
/mnt/checkpoints/<podUID>-<container>-<timestamp>.tar where the
timestamp is the YYYYMMDD-HHMMSS rendering of the agent's LOCAL wall
clock (time.Now().Format with no UTC conversion — it equals UTC only
when the process's time zone is UTC), issues an fsync on it, and the
Checkpoint RPC returns success with artifact URI shared://<filename>;
when the copy (or its fsync) fails, the RPC still returns success = true
with artifact URI file://<localPath>. -/
theorem C5_shared_store_publication_and_fallback :
    ∀ (env : AgentEnv) (req : CheckpointRequest) (cfg : TLSClientConfig) (f0 : String)
      (rest : List String),
      env.mkdirOk = true →
      makeTLSClient env.tlsEnv = Except.ok cfg →
      doCheckpointWithBackoff env.kubeletReplies = Except.ok (f0 :: rest) →
      ((copyToSharedStorage env.clock env.fs req.podUid req.containerName f0).errMsg = none →
        agentCheckpoint env req =
          (⟨true,
            "shared://" ++ (req.podUid ++ "-" ++ req.containerName ++ "-" ++
              goTimestampFormat env.clock.localTime ++ ".tar"),
            "checkpoint created successfully", ""⟩, none) ∧
        (copyToSharedStorage env.clock env.fs req.podUid req.containerName f0).fsyncIssued = true ∧
        (copyToSharedStorage env.clock env.fs req.podUid req.containerName f0).destPath =
          filepathJoin ("/mnt/checkpoints")
            (req.podUid ++ "-" ++ req.containerName ++ "-" ++
              goTimestampFormat env.clock.localTime ++ ".tar")) ∧
      (∀ e,
        (copyToSharedStorage env.clock env.fs req.podUid req.containerName f0).errMsg = some e →
        agentCheckpoint env req =
          (⟨true, "file://" ++ f0, "checkpoint created successfully", ""⟩, none)) := by
  intro env req cfg f0 rest hmk htls hdo
  constructor
  · intro hc
    cases hopen : env.fs.openOk with
    | false => simp [copyToSharedStorage, hopen] at hc
    | true =>
      cases hcreate : env.fs.createOk with
      | false => simp [copyToSharedStorage, hopen, hcreate] at hc
      | true =>
        cases hcopy : env.fs.copyOk with
        | false => simp [copyToSharedStorage, hopen, hcreate, hcopy] at hc
        | true =>
          cases hsync : env.fs.syncOk with
          | false => simp [copyToSharedStorage, hopen, hcreate, hcopy, hsync] at hc
          | true =>
            have hr : copyToSharedStorage env.clock env.fs req.podUid req.containerName f0 =
                ⟨req.podUid ++ "-" ++ req.containerName ++ "-" ++
                   goTimestampFormat env.clock.localTime ++ ".tar",
                 none,
                 filepathJoin ("/mnt/checkpoints")
                   (req.podUid ++ "-" ++ req.containerName ++ "-" ++
                     goTimestampFormat env.clock.localTime ++ ".tar"),
                 true⟩ := by
              simp [copyToSharedStorage, hopen, hcreate, hcopy, hsync]
            refine ⟨?_, ?_, ?_⟩
            · simp [agentCheckpoint, hmk, htls, hdo, hr]
            · rw [hr]
            · rw [hr]
  · intro e hc
    simp [agentCheckpoint, hmk, htls, hdo, hc]

/-- A clock for a process running in a UTC+8 zone: the same instant
renders as midnight in UTC and as 08:00 locally. -/
def clockPlus8 : Clock := ⟨⟨2026, 1, 1, 0, 0, 0⟩, ⟨2026, 1, 1, 8, 0, 0⟩⟩

/-- An agent environment with a healthy kubelet, healthy shared store,
and the UTC+8 clock. -/
def agentEnvShared : AgentEnv :=
  { mkdirOk := true, tlsEnv := tlsEnvAllOk,
    kubeletReplies := fun _ =>
      KubeletReply.reply 200 (KubeletBody.itemsList ["/var/lib/kubelet/checkpoints/x.tar"]),
    fs := ⟨true, true, true, true⟩, clock := clockPlus8 }

/-- C5 counterexample: with the agent's zone at UTC+8, the published
file name embeds the local-clock digits 080000, not the UTC digits
000000 the claim prescribes — the shared-store path is not built from a
UTC timestamp. -/
theorem C5_counterexample :
    (agentCheckpoint agentEnvShared req1).1.artifactUri =
      "shared://u1-c1-20260101-080000.tar" ∧
    specSharedStoreFilename clockPlus8 ("u1") ("c1") = "u1-c1-20260101-000000.tar" ∧
    (agentCheckpoint agentEnvShared req1).1.artifactUri ≠
      "shared://" ++ specSharedStoreFilename clockPlus8 ("u1") ("c1") := by decide

/-- The same environment with a failing byte copy to the shared store. -/
def agentEnvCopyFail : AgentEnv := { agentEnvShared with fs := ⟨true, true, false, true⟩ }

/-- C5 witness: both limbs of the amended theorem at concrete inputs —
the successful publication and the file:// fallback. -/
theorem C5_witness :
    (agentCheckpoint agentEnvShared req1 =
      (⟨true,
        "shared://" ++ ("u1" ++ "-" ++ "c1" ++ "-" ++
          goTimestampFormat agentEnvShared.clock.localTime ++ ".tar"),
        "checkpoint created successfully", ""⟩, none)) ∧
    (agentCheckpoint agentEnvCopyFail req1 =
      (⟨true, "file://" ++ "/var/lib/kubelet/checkpoints/x.tar",
        "checkpoint created successfully", ""⟩, none)) :=
  ⟨((C5_shared_store_publication_and_fallback agentEnvShared req1 agentTLSConfig
      ("/var/lib/kubelet/checkpoints/x.tar") [] rfl (by decide) (by decide)).1 (by decide)).1,
   (C5_shared_store_publication_and_fallback agentEnvCopyFail req1 agentTLSConfig
      ("/var/lib/kubelet/checkpoints/x.tar") [] rfl (by decide) (by decide)).2
      ("copy error") (by decide)⟩

end LPM
